import Mathlib

/-!
Verification of the upscaledb b-tree cursor subsystem and UQI plugin
registry (sources: `src/btree_cursor.cc`, `src/4uqi/plugins.cc`).

The development shallowly embeds the two translation units.  Pure C
functions become Lean functions; the mutable heap (cursors, per-page
cursor lists) becomes an explicit `World` record threaded through every
operation; every external collaborator (page manager, blob store,
b-tree structural routines, dynamic loader) is a field of an `Env`
record, as these are contracts consumed, not code of the excerpt.
Fallible external calls are modelled with `Except Nat` / `Option Nat`
values so that any injected failure status can be analysed.
-/

namespace Upscaledb

/-! ## Status codes

Concrete numeric values of the `HAM_`/`UPS_` status codes are defined in
public headers that are not part of the excerpt; only distinctness and
being nonzero matter to the code under verification, so representative
nonzero values are fixed here. -/

def HAM_SUCCESS : Nat := 0

def HAM_KEY_NOT_FOUND : Nat := 11

def HAM_CURSOR_IS_NIL : Nat := 100

def HAM_OUT_OF_MEMORY : Nat := 12

def HAM_NOT_INITIALIZED : Nat := 14

def UPS_PLUGIN_NOT_FOUND : Nat := 211

/-! ## Plugin registry (`src/4uqi/plugins.cc`)

`uqi_plugin_t` is a descriptor of C function pointers; pointers are
modelled as `Nat` with `0` playing the role of the null pointer, so
that "non-null" is `≠ 0` and descriptors compare by value exactly as
the C struct does. -/

def UQI_PLUGIN_PREDICATE : Nat := 1

def UQI_PLUGIN_AGGREGATE : Nat := 2

structure uqi_plugin_t where
  name : String
  plugin_version : Nat
  type : Nat
  init : Nat
  results : Nat
  pred : Nat
  agg_single : Nat
  agg_many : Nat
deriving Repr, DecidableEq

instance : Inhabited uqi_plugin_t := ⟨⟨"", 0, 0, 0, 0, 0, 0, 0⟩⟩

/-- Model of the static `std::map<std::string, uqi_plugin_t> plugins`:
an association list with unique keys, newest entries in front. -/
abbrev PluginMap := List (String × uqi_plugin_t)

/-- Model of `PluginMap::insert(value_type(name, plugin))`: like
`std::map::insert`, the insertion is a no-op when the key is present. -/
def PluginMap.insertKeep (m : PluginMap) (k : String) (v : uqi_plugin_t) :
    PluginMap :=
  if (List.any m (fun kv => kv.1 = k)) then m else (k, v) :: m

/-- Model of `PluginManager::get` (plugins.cc:136-144): look the name up
in the map, `none` playing the role of the null pointer. -/
def PluginManager.get (m : PluginMap) (plugin_name : String) :
    Option uqi_plugin_t :=
  match List.find? (fun kv => kv.1 = plugin_name) m with
  | none => none
  | some kv => some kv.2

/-- Model of `PluginManager::is_registered` (plugins.cc:130-134). -/
def PluginManager.is_registered (m : PluginMap) (plugin_name : String) :
    Bool :=
  (PluginManager.get m plugin_name).isSome

/-- Model of `PluginManager::add` (plugins.cc:90-128): validate the
version, then the per-type function pointers, then insert without
overwriting.  Returns the status together with the updated registry. -/
def PluginManager.add (plugin : uqi_plugin_t) (m : PluginMap) :
    Nat × PluginMap :=
  if plugin.plugin_version ≠ 0 then
    (UPS_PLUGIN_NOT_FOUND, m)
  else if plugin.type = UQI_PLUGIN_PREDICATE then
    if plugin.pred = 0 then (UPS_PLUGIN_NOT_FOUND, m)
    else (0, m.insertKeep plugin.name plugin)
  else if plugin.type = UQI_PLUGIN_AGGREGATE then
    if plugin.agg_single = 0 then (UPS_PLUGIN_NOT_FOUND, m)
    else if plugin.agg_many = 0 then (UPS_PLUGIN_NOT_FOUND, m)
    else (0, m.insertKeep plugin.name plugin)
  else
    (UPS_PLUGIN_NOT_FOUND, m)

/-- A descriptor is rejected by `PluginManager::add` exactly when its
version is nonzero, its type is unknown, or a required function pointer
is null. -/
def pluginRejected (p : uqi_plugin_t) : Prop :=
  p.plugin_version ≠ 0 ∨
  (p.type ≠ UQI_PLUGIN_PREDICATE ∧ p.type ≠ UQI_PLUGIN_AGGREGATE) ∨
  (p.type = UQI_PLUGIN_PREDICATE ∧ p.pred = 0) ∨
  (p.type = UQI_PLUGIN_AGGREGATE ∧ (p.agg_single = 0 ∨ p.agg_many = 0))

instance (p : uqi_plugin_t) : Decidable (pluginRejected p) := by
  unfold pluginRejected; infer_instance

/-- Registry invariant: every registered predicate has a non-null
`pred`, every registered aggregate has non-null `agg_single` and
`agg_many`. -/
def registryValid (m : PluginMap) : Prop :=
  ∀ kv ∈ m,
    ((kv.2.type = UQI_PLUGIN_PREDICATE → kv.2.pred ≠ 0) ∧
     (kv.2.type = UQI_PLUGIN_AGGREGATE →
        kv.2.agg_single ≠ 0 ∧ kv.2.agg_many ≠ 0))

/-- Sample valid aggregate descriptor used by concrete witnesses. -/
def sampleAggPlugin : uqi_plugin_t :=
  { name := "sum", plugin_version := 0, type := UQI_PLUGIN_AGGREGATE,
    init := 3, results := 4, pred := 0, agg_single := 5, agg_many := 6 }

/-- Second sample descriptor with the same name but different pointers,
used to exercise the duplicate-name behaviour. -/
def sampleAggPlugin2 : uqi_plugin_t :=
  { name := "sum", plugin_version := 0, type := UQI_PLUGIN_AGGREGATE,
    init := 13, results := 14, pred := 0, agg_single := 15, agg_many := 16 }

/-- Helper: the two plugin type constants are distinct. -/
theorem uqi_agg_ne_pred : (UQI_PLUGIN_AGGREGATE = UQI_PLUGIN_PREDICATE) = False := by
  simp [UQI_PLUGIN_AGGREGATE, UQI_PLUGIN_PREDICATE]

/-- Helper: inserting a descriptor whose required function pointers are
non-null preserves the registry invariant. -/
theorem insertKeep_registryValid (m : PluginMap) (p : uqi_plugin_t)
    (hP : p.type = UQI_PLUGIN_PREDICATE → p.pred ≠ 0)
    (hA : p.type = UQI_PLUGIN_AGGREGATE →
        p.agg_single ≠ 0 ∧ p.agg_many ≠ 0)
    (hval : registryValid m) :
    registryValid (PluginMap.insertKeep m p.name p) := by
  unfold PluginMap.insertKeep
  split
  · exact hval
  · intro kv hkv
    rcases List.mem_cons.mp hkv with hkv | hkv
    · subst hkv
      exact ⟨hP, hA⟩
    · exact hval kv hkv

/-- C8: `PluginManager::add` returns `PLUGIN_NOT_FOUND` and leaves the
registry unchanged exactly on descriptors with a nonzero version, an
unknown type, or a missing required function pointer; it succeeds on
every other descriptor, so the registry invariant (registered
predicates have non-null `pred`, registered aggregates non-null
`agg_single`/`agg_many`) is maintained by registration. -/
theorem add_enforces_registration_invariants
    (p : uqi_plugin_t) (m : PluginMap) :
    (pluginRejected p → PluginManager.add p m = (UPS_PLUGIN_NOT_FOUND, m)) ∧
    (¬ pluginRejected p → (PluginManager.add p m).1 = 0) ∧
    (registryValid m → registryValid (PluginManager.add p m).2) := by
  refine ⟨?_, ?_, ?_⟩
  · intro h
    rcases h with h | ⟨h1, h2⟩ | ⟨h1, h2⟩ | ⟨h1, h2⟩
    · simp [PluginManager.add, h]
    · simp [PluginManager.add, h1, h2]
    · simp [PluginManager.add, h1, h2, UQI_PLUGIN_PREDICATE,
        UQI_PLUGIN_AGGREGATE]
    · rcases h2 with h2 | h2 <;>
        simp [PluginManager.add, h1, h2, UQI_PLUGIN_PREDICATE,
          UQI_PLUGIN_AGGREGATE]
  · intro h
    unfold pluginRejected at h
    push_neg at h
    obtain ⟨hv, hty, hp, ha⟩ := h
    by_cases hP : p.type = UQI_PLUGIN_PREDICATE
    · have hpred := hp hP
      simp [PluginManager.add, hv, hP, hpred]
    · have hA : p.type = UQI_PLUGIN_AGGREGATE := hty hP
      have hag := ha hA
      simp [PluginManager.add, hv, hP, hA, hag.1, hag.2,
        UQI_PLUGIN_PREDICATE, UQI_PLUGIN_AGGREGATE]
  · intro hval
    by_cases hv : p.plugin_version ≠ 0
    · simpa [PluginManager.add, hv] using hval
    · by_cases hP : p.type = UQI_PLUGIN_PREDICATE
      · by_cases hpred : p.pred = 0
        · simpa [PluginManager.add, hv, hP, hpred] using hval
        · have heq : (PluginManager.add p m).2 =
              PluginMap.insertKeep m p.name p := by
            simp [PluginManager.add, hv, hP, hpred]
          rw [heq]
          exact insertKeep_registryValid m p (fun _ => hpred)
            (fun hA => absurd (hP.symm.trans hA) (by decide)) hval
      · by_cases hA : p.type = UQI_PLUGIN_AGGREGATE
        · by_cases hs : p.agg_single = 0
          · simpa [PluginManager.add, hv, hP, hA, hs, uqi_agg_ne_pred] using hval
          · by_cases hmany : p.agg_many = 0
            · simpa [PluginManager.add, hv, hP, hA, hs, hmany, uqi_agg_ne_pred] using hval
            · have heq : (PluginManager.add p m).2 =
                  PluginMap.insertKeep m p.name p := by
                simp [PluginManager.add, hv, hP, hA, hs, hmany, uqi_agg_ne_pred]
              rw [heq]
              exact insertKeep_registryValid m p
                (fun hPc => absurd hPc hP) (fun _ => ⟨hs, hmany⟩) hval
        · simpa [PluginManager.add, hv, hP, hA, uqi_agg_ne_pred] using hval

/-- Witness for C8 at concrete descriptors: the valid sample aggregate
is accepted, and a version-1 variant of it is rejected with the
registry unchanged. -/
theorem add_enforces_registration_invariants_witness :
    (PluginManager.add sampleAggPlugin []).1 = 0 ∧
    PluginManager.add { sampleAggPlugin with plugin_version := 1 } [] =
      (UPS_PLUGIN_NOT_FOUND, []) :=
  ⟨(add_enforces_registration_invariants sampleAggPlugin []).2.1
      (by decide),
   (add_enforces_registration_invariants
      { sampleAggPlugin with plugin_version := 1 } []).1
      (Or.inl (by decide))⟩

/-- C9: once a descriptor is registered under a name, a later
successful `PluginManager::add` of a valid descriptor with the same
name leaves the mapping unchanged, and `get` keeps returning the
originally registered descriptor by value. -/
theorem add_duplicate_name_keeps_first
    (m : PluginMap) (p2 d1 : uqi_plugin_t)
    (h1 : PluginManager.get m p2.name = some d1)
    (h2 : (PluginManager.add p2 m).1 = 0) :
    (PluginManager.add p2 m).2 = m ∧
    PluginManager.get (PluginManager.add p2 m).2 p2.name = some d1 := by
  have hmem : List.any m (fun kv => kv.1 = p2.name) = true := by
    unfold PluginManager.get at h1
    cases hfind : List.find? (fun kv => kv.1 = p2.name) m with
    | none => rw [hfind] at h1; exact absurd h1 (by simp)
    | some kv =>
        have hkvmem := List.mem_of_find?_eq_some hfind
        have hkvp := List.find?_some hfind
        exact List.any_eq_true.mpr ⟨kv, hkvmem, hkvp⟩
  have hkeep : PluginMap.insertKeep m p2.name p2 = m := by
    unfold PluginMap.insertKeep
    simp [hmem]
  have hmap : (PluginManager.add p2 m).2 = m := by
    by_cases hv : p2.plugin_version ≠ 0
    · simp [PluginManager.add, hv]
    · by_cases hP : p2.type = UQI_PLUGIN_PREDICATE
      · by_cases hpred : p2.pred = 0
        · simp [PluginManager.add, hv, hP, hpred]
        · simp [PluginManager.add, hv, hP, hpred, hkeep]
      · by_cases hA : p2.type = UQI_PLUGIN_AGGREGATE
        · by_cases hs : p2.agg_single = 0
          · simp [PluginManager.add, hv, hP, hA, hs, uqi_agg_ne_pred]
          · by_cases hmany : p2.agg_many = 0
            · simp [PluginManager.add, hv, hP, hA, hs, hmany, uqi_agg_ne_pred]
            · simp [PluginManager.add, hv, hP, hA, hs, hmany, hkeep, uqi_agg_ne_pred]
        · simp [PluginManager.add, hv, hP, hA, uqi_agg_ne_pred]
  exact ⟨hmap, by rw [hmap]; exact h1⟩

/-- Witness for C9: register the sample aggregate, then add a
same-named descriptor with different function pointers; `get` still
returns the first descriptor. -/
theorem add_duplicate_name_keeps_first_witness :
    (PluginManager.add sampleAggPlugin2
        (PluginManager.add sampleAggPlugin []).2).2 =
      (PluginManager.add sampleAggPlugin []).2 ∧
    PluginManager.get
      (PluginManager.add sampleAggPlugin2
        (PluginManager.add sampleAggPlugin []).2).2 sampleAggPlugin2.name =
      some sampleAggPlugin :=
  add_duplicate_name_keeps_first
    (PluginManager.add sampleAggPlugin []).2 sampleAggPlugin2 sampleAggPlugin
    (by decide) (by decide)

/-! ## B-tree cursor subsystem (`src/btree_cursor.cc`)

Pages are identified by `Nat` page ids, `0` playing the role of the
null page pointer (`btree_get_rootpage(be) == 0` means "no root", a
null `right`/`left` sibling pointer is `0`).  Cursors are identified by
`Nat` ids standing for the parent `Cursor *`: the per-page cursor list
stores parent pointers (`page_add_cursor(page, btree_cursor_get_parent(c))`),
so list membership is membership of the cursor id.  Key entries carry
their flag bits and their record id; `data` stands for the key bytes
that `btree_copy_key_int2pub` / `db_copy_key` duplicate onto the heap. -/

def KEY_BLOB_SIZE_TINY : Nat := 1

def KEY_BLOB_SIZE_SMALL : Nat := 2

def KEY_BLOB_SIZE_EMPTY : Nat := 4

def KEY_HAS_DUPLICATES : Nat := 16

/-- A duplicate-table entry (`dupe_entry_t`): flags plus record id. -/
structure dupe_entry_t where
  flags : Nat
  rid : Nat
deriving Repr, DecidableEq

instance : Inhabited dupe_entry_t := ⟨⟨0, 0⟩⟩

/-- A key entry inside a b-tree node (`btree_key_t`), read through the
`key_get_flags` / `key_get_ptr` / `key_get_rawptr` accessors; `ptr` is
the record id (also the child page id in internal nodes), `data` the
key bytes copied by the key-copy helpers. -/
structure btree_key_t where
  flags : Nat
  ptr : Nat
  data : Nat
deriving Repr, DecidableEq

instance : Inhabited btree_key_t := ⟨⟨0, 0, 0⟩⟩

/-- A b-tree node as seen through the `btree_node_*` accessors.
`keys.length` is `btree_node_get_count`. -/
structure btree_node_t where
  is_leaf : Bool
  keys : List btree_key_t
  ptr_left : Nat
  left : Nat
  right : Nat
deriving Repr, DecidableEq

instance : Inhabited btree_node_t := ⟨⟨true, [], 0, 0, 0⟩⟩

/-- The state of one `btree_cursor_t`.  The C struct keeps COUPLED and
UNCOUPLED as independent bit flags (mutual exclusion is maintained by
hand), so both are separate `Bool` fields here; `txnop` models
`parent->is_coupled_to_txnop()`.  `ukey` is the heap-owned uncoupled
key (`none` = null pointer), holding the copied key bytes. -/
structure btree_cursor_t where
  coupled : Bool
  uncoupled : Bool
  txnop : Bool
  page : Nat
  index : Nat
  dupe_id : Nat
  ukey : Option Nat
  dupe_cache : dupe_entry_t
deriving Repr, DecidableEq

instance : Inhabited btree_cursor_t :=
  ⟨⟨false, false, false, 0, 0, 0, none, default⟩⟩

/-- The mutable heap: every cursor's state, plus every page's cursor
list (`page_get_cursors`), as a list of parent-cursor ids in linked
order (head first). -/
structure World where
  curs : Nat → btree_cursor_t
  lists : Nat → List Nat

/-- External collaborators (§6 of the spec): the page manager, blob
store and b-tree structural routines consumed by the cursor code.
Failure injection: `fetch_err q = some st` makes `db_fetch_page` of
page `q` fail with status `st`, and similarly for the other `Option`
and `Except` fields. -/
structure Env where
  backend : Bool
  rootpage : Nat
  nodes : Nat → btree_node_t
  fetch_err : Nat → Option Nat
  dup_get : Nat → Nat → Except Nat dupe_entry_t
  dup_count : Nat → Except Nat Nat
  datasize : Nat → Except Nat Nat
  find_key : Nat → Except Nat (Nat × Nat)
  read_key_err : Nat → Option Nat
  read_rec_err : Nat → Option Nat
  insert_res : Except Nat (Nat × Nat)
  erase_err : Nat → Option Nat
  set_record_err : Option Nat

/-- The key entry at a slot (`btree_node_get_key(db, node, slot)`). -/
def keyAt (env : Env) (p slot : Nat) : btree_key_t :=
  (env.nodes p).keys.getD slot default

/-- Replace the state of one cursor. -/
def updCursor (w : World) (cid : Nat)
    (f : btree_cursor_t → btree_cursor_t) : World :=
  { w with curs := fun i => if i = cid then f (w.curs i) else w.curs i }

/-- Model of `page_add_cursor(page, parent)`: link the cursor at the
head of the page's cursor list. -/
def page_add_cursor (w : World) (p cid : Nat) : World :=
  { w with lists := fun q => if q = p then cid :: w.lists q else w.lists q }

/-- Model of `page_remove_cursor(page, parent)`: unlink the cursor from
the page's cursor list. -/
def page_remove_cursor (w : World) (p cid : Nat) : World :=
  { w with lists := fun q =>
      if q = p then List.filter (fun i => i ≠ cid) (w.lists q)
      else w.lists q }

/-- Model of `btree_cursor_is_nil` (btree_cursor.cc:408-418). -/
def btree_cursor_is_nil (c : btree_cursor_t) : Bool :=
  !c.uncoupled && !c.coupled && !c.txnop

/-- Model of `btree_cursor_set_to_nil` (btree_cursor.cc:367-394): free
the uncoupled key, or remove a coupled cursor from its page's list,
clear the state flag, reset `dupe_id` and zero the duplicate cache. -/
def btree_cursor_set_to_nil (w : World) (cid : Nat) : World :=
  let c := w.curs cid
  if c.uncoupled then
    updCursor w cid (fun c => { c with
      uncoupled := false, ukey := none, dupe_id := 0, dupe_cache := default })
  else if c.coupled then
    let w1 := page_remove_cursor w c.page cid
    updCursor w1 cid (fun c => { c with
      coupled := false, dupe_id := 0, dupe_cache := default })
  else
    updCursor w cid (fun c => { c with
      dupe_id := 0, dupe_cache := default })

/-- Model of `btree_cursor_uncouple` (btree_cursor.cc:420-466): no-op
on UNCOUPLED or NIL cursors; otherwise copy the current key out of the
node (the key-copy helper and the allocator are modelled as always
succeeding), unlink from the page list unless `NO_REMOVE` is set, and
flip COUPLED to UNCOUPLED.  `no_remove` is the
`BTREE_CURSOR_UNCOUPLE_NO_REMOVE` flag bit. -/
def btree_cursor_uncouple (env : Env) (w : World) (cid : Nat)
    (no_remove : Bool) : Nat × World :=
  let c := w.curs cid
  if c.uncoupled || btree_cursor_is_nil c then (0, w)
  else
    let entry := keyAt env c.page c.index
    let w1 := if no_remove then w else page_remove_cursor w c.page cid
    (0, updCursor w1 cid (fun c => { c with
      coupled := false, uncoupled := true, ukey := some entry.data }))

/-- Model of `btree_cursor_find` (btree_cursor.cc:640-662) together
with the effect of the external `btree_find_cursor` (btree.c is not in
the excerpt).  Modelled from the spec: "On success, the external
routine has coupled the cursor to the matching slot with
`duplicate_index = 0`"; "On failure the cursor remains NIL; the error
is returned verbatim". -/
def btree_cursor_find (env : Env) (w : World) (cid : Nat)
    (keydata : Nat) : Nat × World :=
  if !env.backend then (HAM_NOT_INITIALIZED, w)
  else
    let w1 := btree_cursor_set_to_nil w cid
    match env.find_key keydata with
    | Except.error st => (st, w1)
    | Except.ok ps =>
        let w2 := page_add_cursor w1 ps.1 cid
        (0, updCursor w2 cid (fun c => { c with
          coupled := true, page := ps.1, index := ps.2, dupe_id := 0 }))

/-- Model of `btree_cursor_couple` (btree_cursor.cc:34-71): copy the
cached uncoupled key (copy modelled as always succeeding), save the
dupe id, run `find` on the copy, and restore the dupe id afterwards --
also when `find` failed. -/
def btree_cursor_couple (env : Env) (w : World) (cid : Nat) :
    Nat × World :=
  let c := w.curs cid
  let keydata := c.ukey.getD 0
  let dupe_id := c.dupe_id
  let r := btree_cursor_find env w cid keydata
  (r.1, updCursor r.2 cid (fun c => { c with dupe_id := dupe_id }))

/-- Model of `btree_cursor_clone` (btree_cursor.cc:468-505): copy the
dupe id, bind `dest` to the new parent (implicit here: the cursor id is
the parent identity); a COUPLED source adds `dest` to the page's cursor
list and copies the page pointer, an UNCOUPLED source deep-copies the
saved key (allocation modelled as always succeeding). -/
def btree_cursor_clone (env : Env) (w : World) (src dest : Nat) :
    Nat × World :=
  let s := w.curs src
  let w1 := updCursor w dest (fun d => { d with dupe_id := s.dupe_id })
  if s.coupled then
    let w2 := page_add_cursor w1 s.page dest
    (0, updCursor w2 dest (fun d => { d with page := s.page }))
  else if s.uncoupled then
    (0, updCursor w1 dest (fun d => { d with ukey := s.ukey }))
  else
    (0, w1)

/-- Model of `btree_cursor_points_to` (btree_cursor.cc:712-735).  The
`btree_key_t *key` argument is identified by the page and slot that
hold it (distinct slots hold distinct addresses, the same slot the same
address, which is what pointer equality observes on an unchanging
tree).  Note the C return type is `ham_bool_t` but a nonzero couple
failure status is returned through it verbatim. -/
def btree_cursor_points_to (env : Env) (w : World) (cid : Nat)
    (kp ks : Nat) : Nat × World :=
  let c := w.curs cid
  if c.uncoupled then
    let r := btree_cursor_couple env w cid
    if r.1 ≠ 0 then r
    else
      let c1 := r.2.curs cid
      if c1.coupled then
        (if c1.page = kp ∧ c1.index = ks then 1 else 0, r.2)
      else (0, r.2)
  else if c.coupled then
    (if c.page = kp ∧ c.index = ks then 1 else 0, w)
  else (0, w)

/-- Internal-error status used only when the descent fuel runs out;
real trees have finite depth, so concrete instantiations never hit it. -/
def HAM_INTERNAL_ERROR : Nat := 99

/-- The `ham_u32_t flags` argument of `btree_cursor_move`, decomposed
into its bits (`HAM_CURSOR_FIRST`/`LAST`/`NEXT`/`PREVIOUS`,
`HAM_SKIP_DUPLICATES`, `HAM_ONLY_DUPLICATES`). -/
structure MoveFlags where
  first : Bool
  last : Bool
  next : Bool
  prev : Bool
  skip_dup : Bool
  only_dup : Bool
deriving Repr, DecidableEq

/-- Descent loop of `__move_first` (btree_cursor.cc:95-107): follow
`ptr_left` until a leaf; an empty node yields `KEY_NOT_FOUND`; page
fetches can fail.  `fuel` bounds the depth. -/
def descend_left (env : Env) : Nat → Nat → Except Nat Nat
  | 0, _ => Except.error HAM_INTERNAL_ERROR
  | fuel + 1, p =>
    let node := env.nodes p
    if node.keys.length = 0 then Except.error HAM_KEY_NOT_FOUND
    else if node.is_leaf then Except.ok p
    else
      match env.fetch_err node.ptr_left with
      | some st => Except.error st
      | none => descend_left env fuel node.ptr_left

/-- Descent loop of `__move_last` (btree_cursor.cc:325-341): follow the
`ptr` of the last key entry until a leaf. -/
def descend_right (env : Env) : Nat → Nat → Except Nat Nat
  | 0, _ => Except.error HAM_INTERNAL_ERROR
  | fuel + 1, p =>
    let node := env.nodes p
    if node.keys.length = 0 then Except.error HAM_KEY_NOT_FOUND
    else if node.is_leaf then Except.ok p
    else
      let key := node.keys.getD (node.keys.length - 1) default
      match env.fetch_err key.ptr with
      | some st => Except.error st
      | none => descend_right env fuel key.ptr

/-- Model of `__move_first` (btree_cursor.cc:73-118). -/
def move_first (env : Env) (fuel : Nat) (w : World) (cid : Nat) :
    Nat × World :=
  let w1 := btree_cursor_set_to_nil w cid
  if env.rootpage = 0 then (HAM_KEY_NOT_FOUND, w1)
  else
    match env.fetch_err env.rootpage with
    | some st => (st, w1)
    | none =>
      match descend_left env fuel env.rootpage with
      | Except.error st => (st, w1)
      | Except.ok p =>
        let w2 := page_add_cursor w1 p cid
        (0, updCursor w2 cid (fun c => { c with
          coupled := true, page := p, index := 0, dupe_id := 0 }))

/-- Shared "move to the end of the duplicate-list" tail of
`__move_last` and `__move_previous` (btree_cursor.cc:284-294,352-362):
query the duplicate count and set `dupe_id = count - 1`. -/
def dupe_tail (env : Env) (w : World) (cid : Nat) (entry : btree_key_t)
    (fl : MoveFlags) : Nat × World :=
  if entry.flags &&& KEY_HAS_DUPLICATES ≠ 0 && !fl.skip_dup then
    match env.dup_count entry.ptr with
    | Except.error st => (st, w)
    | Except.ok count =>
        (0, updCursor w cid (fun c => { c with dupe_id := count - 1 }))
  else (0, w)

/-- Model of `__move_last` (btree_cursor.cc:299-365). -/
def move_last (env : Env) (fuel : Nat) (w : World) (cid : Nat)
    (fl : MoveFlags) : Nat × World :=
  let w1 := btree_cursor_set_to_nil w cid
  if env.rootpage = 0 then (HAM_KEY_NOT_FOUND, w1)
  else
    match env.fetch_err env.rootpage with
    | some st => (st, w1)
    | none =>
      match descend_right env fuel env.rootpage with
      | Except.error st => (st, w1)
      | Except.ok p =>
        let idx := (env.nodes p).keys.length - 1
        let w2 := page_add_cursor w1 p cid
        let w3 := updCursor w2 cid (fun c => { c with
          coupled := true, page := p, index := idx, dupe_id := 0 })
        dupe_tail env w3 cid (keyAt env p idx) fl

/-- Fall-through of `__move_next` after the duplicate step
(btree_cursor.cc:163-199): stop under `ONLY_DUPLICATES`, advance inside
the page, or cross to the right sibling. -/
def move_next_cross (env : Env) (w : World) (cid : Nat)
    (fl : MoveFlags) : Nat × World :=
  let c := w.curs cid
  let node := env.nodes c.page
  if fl.only_dup then (HAM_KEY_NOT_FOUND, w)
  else if c.index + 1 < node.keys.length then
    (HAM_SUCCESS, updCursor w cid (fun c => { c with
      index := c.index + 1, dupe_id := 0 }))
  else if node.right = 0 then (HAM_KEY_NOT_FOUND, w)
  else
    let w1 := page_remove_cursor w c.page cid
    let w2 := updCursor w1 cid (fun c => { c with coupled := false })
    match env.fetch_err node.right with
    | some st => (st, w2)
    | none =>
      let w3 := page_add_cursor w2 node.right cid
      (HAM_SUCCESS, updCursor w3 cid (fun c => { c with
        coupled := true, page := node.right, index := 0, dupe_id := 0 }))

/-- Duplicate step of `__move_next` (btree_cursor.cc:143-161) on an
already coupled cursor: try the next duplicate; a `KEY_NOT_FOUND` from
the blob store reverts `dupe_id` and falls through to cross-key
stepping, any other failure reverts and is propagated. -/
def move_next_coupled (env : Env) (w : World) (cid : Nat)
    (fl : MoveFlags) : Nat × World :=
  let c := w.curs cid
  let entry := keyAt env c.page c.index
  if entry.flags &&& KEY_HAS_DUPLICATES ≠ 0 && !fl.skip_dup then
    match env.dup_get entry.ptr (c.dupe_id + 1) with
    | Except.ok de =>
        (0, updCursor w cid (fun c => { c with
          dupe_id := c.dupe_id + 1, dupe_cache := de }))
    | Except.error st =>
        if st ≠ HAM_KEY_NOT_FOUND then (st, w)
        else move_next_cross env w cid fl
  else move_next_cross env w cid fl

/-- Model of `__move_next` (btree_cursor.cc:120-200). -/
def move_next (env : Env) (w : World) (cid : Nat) (fl : MoveFlags) :
    Nat × World :=
  let c := w.curs cid
  if c.uncoupled then
    let r := btree_cursor_couple env w cid
    if r.1 ≠ 0 then r else move_next_coupled env r.2 cid fl
  else if !c.coupled then (HAM_CURSOR_IS_NIL, w)
  else move_next_coupled env w cid fl

/-- Fall-through of `__move_previous` after the duplicate step
(btree_cursor.cc:246-296): stop under `ONLY_DUPLICATES`, step back
inside the page or cross to the left sibling, then jump to the last
duplicate of the new current key. -/
def move_previous_cross (env : Env) (w : World) (cid : Nat)
    (fl : MoveFlags) : Nat × World :=
  let c := w.curs cid
  let node := env.nodes c.page
  if fl.only_dup then (HAM_KEY_NOT_FOUND, w)
  else if c.index ≠ 0 then
    let w1 := updCursor w cid (fun c => { c with
      index := c.index - 1, dupe_id := 0 })
    dupe_tail env w1 cid (keyAt env c.page (c.index - 1)) fl
  else if node.left = 0 then (HAM_KEY_NOT_FOUND, w)
  else
    let w1 := page_remove_cursor w c.page cid
    let w2 := updCursor w1 cid (fun c => { c with coupled := false })
    match env.fetch_err node.left with
    | some st => (st, w2)
    | none =>
      let lidx := (env.nodes node.left).keys.length - 1
      let w3 := page_add_cursor w2 node.left cid
      let w4 := updCursor w3 cid (fun c => { c with
        coupled := true, page := node.left, index := lidx, dupe_id := 0 })
      dupe_tail env w4 cid (keyAt env node.left lidx) fl

/-- Duplicate step of `__move_previous` (btree_cursor.cc:225-244): try
the previous duplicate, but only when `dupe_id > 0`. -/
def move_previous_coupled (env : Env) (w : World) (cid : Nat)
    (fl : MoveFlags) : Nat × World :=
  let c := w.curs cid
  let entry := keyAt env c.page c.index
  if entry.flags &&& KEY_HAS_DUPLICATES ≠ 0 && !fl.skip_dup &&
      c.dupe_id > 0 then
    match env.dup_get entry.ptr (c.dupe_id - 1) with
    | Except.ok de =>
        (0, updCursor w cid (fun c => { c with
          dupe_id := c.dupe_id - 1, dupe_cache := de }))
    | Except.error st =>
        if st ≠ HAM_KEY_NOT_FOUND then (st, w)
        else move_previous_cross env w cid fl
  else move_previous_cross env w cid fl

/-- Model of `__move_previous` (btree_cursor.cc:202-297). -/
def move_previous (env : Env) (w : World) (cid : Nat) (fl : MoveFlags) :
    Nat × World :=
  let c := w.curs cid
  if c.uncoupled then
    let r := btree_cursor_couple env w cid
    if r.1 ≠ 0 then r else move_previous_coupled env r.2 cid fl
  else if !c.coupled then (HAM_CURSOR_IS_NIL, w)
  else move_previous_coupled env w cid fl

/-- Record-read part of `btree_cursor_move` (btree_cursor.cc:611-635):
for a duplicate position use the cached duplicate entry, populating the
cache first when it is empty (the C tests `dupe_entry_get_rid(e)` for
emptiness), otherwise the key entry's own record id; then delegate to
`btree_read_record`. -/
def read_record_step (env : Env) (w : World) (cid : Nat)
    (entry : btree_key_t) : Nat × World :=
  let c := w.curs cid
  if entry.flags &&& KEY_HAS_DUPLICATES ≠ 0 && c.dupe_id ≠ 0 then
    if c.dupe_cache.rid = 0 then
      match env.dup_get entry.ptr c.dupe_id with
      | Except.error st => (st, w)
      | Except.ok de =>
          let w1 := updCursor w cid (fun c => { c with dupe_cache := de })
          match env.read_rec_err de.rid with
          | some st => (st, w1)
          | none => (0, w1)
    else
      match env.read_rec_err c.dupe_cache.rid with
      | some st => (st, w)
      | none => (0, w)
  else
    match env.read_rec_err entry.ptr with
    | some st => (st, w)
    | none => (0, w)

/-- Key/record read phase of `btree_cursor_move`
(btree_cursor.cc:599-635), entered once positioning succeeded. -/
def read_step (env : Env) (w : World) (cid : Nat)
    (useKey useRec : Bool) : Nat × World :=
  let c := w.curs cid
  let entry := keyAt env c.page c.index
  if useKey then
    match env.read_key_err entry.data with
    | some st => (st, w)
    | none => if useRec then read_record_step env w cid entry else (0, w)
  else if useRec then read_record_step env w cid entry else (0, w)

/-- Glue of `btree_cursor_move`: propagate a positioning failure,
otherwise run the read phase. -/
def after_position (env : Env) (cid : Nat) (useKey useRec : Bool) :
    Nat × World → Nat × World
  | (st, w) => if st ≠ 0 then (st, w) else read_step env w cid useKey useRec

/-- Model of `btree_cursor_move` (btree_cursor.cc:552-638).  `useKey` /
`useRec` model the nullness of the `key` / `record` output arguments. -/
def btree_cursor_move (env : Env) (fuel : Nat) (w : World) (cid : Nat)
    (useKey useRec : Bool) (fl : MoveFlags) : Nat × World :=
  if !env.backend then (HAM_NOT_INITIALIZED, w)
  else
    let w0 := updCursor w cid (fun c => { c with dupe_cache := default })
    if fl.first then
      after_position env cid useKey useRec (move_first env fuel w0 cid)
    else if fl.last then
      after_position env cid useKey useRec (move_last env fuel w0 cid fl)
    else if fl.next then
      after_position env cid useKey useRec (move_next env w0 cid fl)
    else if fl.prev then
      after_position env cid useKey useRec (move_previous env w0 cid fl)
    else if btree_cursor_is_nil (w0.curs cid) then
      (if useKey || useRec then HAM_CURSOR_IS_NIL else 0, w0)
    else if (w0.curs cid).uncoupled then
      after_position env cid useKey useRec (btree_cursor_couple env w0 cid)
    else
      after_position env cid useKey useRec (0, w0)

/-- Coupled phase of `btree_cursor_overwrite` (btree_cursor.cc:530-549):
clear the duplicate cache, delegate to the external `key_set_record`,
mark the page dirty (dirtiness is not observable in the model). -/
def overwrite_coupled (env : Env) (w : World) (cid : Nat) : Nat × World :=
  let w1 := updCursor w cid (fun c => { c with dupe_cache := default })
  match env.set_record_err with
  | some st => (st, w1)
  | none => (0, w1)

/-- Model of `btree_cursor_overwrite` (btree_cursor.cc:513-550). -/
def btree_cursor_overwrite (env : Env) (w : World) (cid : Nat) :
    Nat × World :=
  let c := w.curs cid
  if c.uncoupled then
    let r := btree_cursor_couple env w cid
    if r.1 ≠ 0 then r else overwrite_coupled env r.2 cid
  else if !c.coupled then (HAM_CURSOR_IS_NIL, w)
  else overwrite_coupled env w cid

/-- Model of `btree_cursor_insert` (btree_cursor.cc:664-683).  The
whole insertion runs in the external `btree_insert_cursor` (btree.c is
not in the excerpt); its effect on the cursor is modelled from the
spec: "On success the cursor is left coupled to the new (or
overwritten) slot", on failure the error is returned verbatim. -/
def btree_cursor_insert (env : Env) (w : World) (cid : Nat) :
    Nat × World :=
  if !env.backend then (HAM_NOT_INITIALIZED, w)
  else
    match env.insert_res with
    | Except.error st => (st, w)
    | Except.ok ps =>
        let w1 := btree_cursor_set_to_nil w cid
        let w2 := page_add_cursor w1 ps.1 cid
        (0, updCursor w2 cid (fun c => { c with
          coupled := true, page := ps.1, index := ps.2, dupe_id := 0 }))

/-- Tail of `btree_cursor_erase` (btree_cursor.cc:704-709): delegate to
the external `btree_erase_cursor` with the uncoupled key, and reset the
cursor to NIL on success. -/
def erase_uncoupled (env : Env) (w : World) (cid : Nat) : Nat × World :=
  match env.erase_err ((w.curs cid).ukey.getD 0) with
  | some st => (st, w)
  | none => (0, btree_cursor_set_to_nil w cid)

/-- Model of `btree_cursor_erase` (btree_cursor.cc:685-710): a coupled
cursor is uncoupled first, a NIL cursor is rejected. -/
def btree_cursor_erase (env : Env) (w : World) (cid : Nat) :
    Nat × World :=
  if !env.backend then (HAM_NOT_INITIALIZED, w)
  else
    let c := w.curs cid
    if c.coupled then
      let r := btree_cursor_uncouple env w cid false
      if r.1 ≠ 0 then r else erase_uncoupled env r.2 cid
    else if !c.uncoupled then (HAM_CURSOR_IS_NIL, w)
    else erase_uncoupled env w cid

/-- The high byte `p[sizeof(ham_offset_t)-1]` of the little-endian
64-bit record id, read by the `BLOB_SIZE_TINY` case of
`btree_cursor_get_record_size` (btree_cursor.cc:920-924). -/
def high_byte (rid : Nat) : Nat := rid / 2 ^ 56 % 256

/-- Size computation of `btree_cursor_get_record_size` on a coupled
cursor (btree_cursor.cc:900-939): pick flags and rid from the current
duplicate entry when the key has duplicates, else from the key entry,
then dispatch on the `BLOB_SIZE_*` flag bits. -/
def record_size_coupled (env : Env) (w : World) (cid : Nat) :
    Except Nat Nat :=
  let c := w.curs cid
  let entry := keyAt env c.page c.index
  let kfr : Except Nat (Nat × Nat) :=
    if entry.flags &&& KEY_HAS_DUPLICATES ≠ 0 then
      match env.dup_get entry.ptr c.dupe_id with
      | Except.error st => Except.error st
      | Except.ok de => Except.ok (de.flags, de.rid)
    else Except.ok (entry.flags, entry.ptr)
  match kfr with
  | Except.error st => Except.error st
  | Except.ok fr =>
    if fr.1 &&& KEY_BLOB_SIZE_TINY ≠ 0 then Except.ok (high_byte fr.2)
    else if fr.1 &&& KEY_BLOB_SIZE_SMALL ≠ 0 then Except.ok 8
    else if fr.1 &&& KEY_BLOB_SIZE_EMPTY ≠ 0 then Except.ok 0
    else env.datasize fr.2

/-- Model of `btree_cursor_get_record_size` (btree_cursor.cc:872-940):
`Except.ok size` models a zero status with `*size` filled in. -/
def btree_cursor_get_record_size (env : Env) (w : World) (cid : Nat) :
    Except Nat Nat × World :=
  if !env.backend then (Except.error HAM_NOT_INITIALIZED, w)
  else
    let c := w.curs cid
    if c.uncoupled then
      let r := btree_cursor_couple env w cid
      if r.1 ≠ 0 then (Except.error r.1, r.2)
      else (record_size_coupled env r.2 cid, r.2)
    else if !c.coupled then (Except.error HAM_CURSOR_IS_NIL, w)
    else (record_size_coupled env w cid, w)

/-- The uncouple call made by the loop body of
`btree_uncouple_all_cursors` (btree_cursor.cc:802): the source passes
flags `0`, i.e. `no_remove := false`. -/
def uncouple_all_uncouple_substep (env : Env) (w : World) (cid : Nat) :
    World :=
  (btree_cursor_uncouple env w cid false).2

/-- One iteration of the `btree_uncouple_all_cursors` loop body
(btree_cursor.cc:785-810) for the cursor `cid`; the `Bool` accumulator
is the `skipped` flag.  The trailing `set_next_in_page(0)` /
`set_previous_in_page(0)` calls only null the dangling pointers of the
cursor that the uncouple call already unlinked, which has no effect in
the list abstraction. -/
def uncouple_all_step (env : Env) (start cid : Nat)
    (acc : World × Bool) : World × Bool :=
  let c := acc.1.curs cid
  if c.coupled || c.txnop then
    if c.index < start then (acc.1, true)
    else (uncouple_all_uncouple_substep env acc.1 cid, acc.2)
  else acc

/-- The `while (c)` loop of `btree_uncouple_all_cursors`: the iteration
order is the cursor list as it stood on entry, since `n` is saved
before the body may unlink `c`. -/
def uncouple_all_loop (env : Env) (start : Nat) :
    List Nat → World × Bool → World × Bool
  | [], acc => acc
  | cid :: rest, acc =>
      uncouple_all_loop env start rest (uncouple_all_step env start cid acc)

/-- Model of `btree_uncouple_all_cursors` (btree_cursor.cc:777-816):
walk the page's cursor list, uncoupling every coupled (or
txn-op-coupled) cursor at `index ≥ start`; if no cursor was skipped,
clear the page's cursor list head. -/
def btree_uncouple_all_cursors (env : Env) (w : World) (p start : Nat) :
    Nat × World :=
  let acc := uncouple_all_loop env start (w.lists p) (w, false)
  if acc.2 then (0, acc.1)
  else (0, { acc.1 with lists := fun q => if q = p then [] else acc.1.lists q })

/-! ## Concrete fixtures used by witnesses and counterexamples -/

/-- Trivial environment: one-key leaf everywhere, no injected
failures, `find` misses. -/
def envTriv : Env :=
  { backend := true, rootpage := 0, nodes := fun _ => default,
    fetch_err := fun _ => none,
    dup_get := fun _ _ => Except.error HAM_KEY_NOT_FOUND,
    dup_count := fun _ => Except.ok 1,
    datasize := fun _ => Except.ok 0,
    find_key := fun _ => Except.error HAM_KEY_NOT_FOUND,
    read_key_err := fun _ => none, read_rec_err := fun _ => none,
    insert_res := Except.error HAM_KEY_NOT_FOUND,
    erase_err := fun _ => none, set_record_err := none }

/-- A cursor coupled to page 5, slot 2, duplicate 3. -/
def coupledCursor : btree_cursor_t :=
  { coupled := true, uncoupled := false, txnop := false,
    page := 5, index := 2, dupe_id := 3, ukey := none,
    dupe_cache := default }

/-- World for the clone witness: cursors 0 and 1 both hold the state of
`coupledCursor` (the caller `Cursor::clone` struct-copies the source
into the destination before `btree_cursor_clone` runs); only cursor 0
is on page 5's list. -/
def wClone : World :=
  { curs := fun i => if i ≤ 1 then coupledCursor else default,
    lists := fun q => if q = 5 then [0] else [] }

/-- An uncoupled cursor holding key bytes `7`. -/
def uncoupledCursor : btree_cursor_t :=
  { coupled := false, uncoupled := true, txnop := false,
    page := 0, index := 0, dupe_id := 0, ukey := some 7,
    dupe_cache := default }

/-- World with cursor 0 uncoupled and every cursor list empty. -/
def wUnc : World :=
  { curs := fun i => if i = 0 then uncoupledCursor else default,
    lists := fun _ => [] }

/-! ## Claim theorems -/

/-- C1: for a COUPLED source, `btree_cursor_clone` succeeds and leaves
`dest` COUPLED to the same `(page, slot)` as `src`, with `dest` on the
page's cursor list and `dest`'s `duplicate_index` equal to `src`'s.
The function itself copies `dupe_id` and the page pointer and links
`dest` into the list; the COUPLED flag and the slot index of `dest`
come from the caller `Cursor::clone` (cursor.cc, not part of the
excerpt), which struct-copies the whole source cursor into `dest`
before calling down — that caller contract is the hypothesis
`hcopy`. -/
theorem clone_coupled_copies_position
    (env : Env) (w : World) (src dest : Nat)
    (hcopy : w.curs dest = w.curs src)
    (hc : (w.curs src).coupled = true) :
    (btree_cursor_clone env w src dest).1 = 0 ∧
    ((btree_cursor_clone env w src dest).2.curs dest).coupled = true ∧
    ((btree_cursor_clone env w src dest).2.curs dest).page =
      (w.curs src).page ∧
    ((btree_cursor_clone env w src dest).2.curs dest).index =
      (w.curs src).index ∧
    ((btree_cursor_clone env w src dest).2.curs dest).dupe_id =
      (w.curs src).dupe_id ∧
    dest ∈ (btree_cursor_clone env w src dest).2.lists ((w.curs src).page) := by
  unfold btree_cursor_clone
  simp [hc, updCursor, page_add_cursor, hcopy]

/-- Witness for C1 at the concrete clone world: cursor 1 ends coupled
to page 5 slot 2 with duplicate 3 and on page 5's cursor list. -/
theorem clone_coupled_copies_position_witness :
    (btree_cursor_clone envTriv wClone 0 1).1 = 0 ∧
    ((btree_cursor_clone envTriv wClone 0 1).2.curs 1).coupled = true ∧
    ((btree_cursor_clone envTriv wClone 0 1).2.curs 1).page =
      (wClone.curs 0).page ∧
    ((btree_cursor_clone envTriv wClone 0 1).2.curs 1).index =
      (wClone.curs 0).index ∧
    ((btree_cursor_clone envTriv wClone 0 1).2.curs 1).dupe_id =
      (wClone.curs 0).dupe_id ∧
    1 ∈ (btree_cursor_clone envTriv wClone 0 1).2.lists ((wClone.curs 0).page) :=
  clone_coupled_copies_position envTriv wClone 0 1 (by rfl) (by rfl)

/-- C10: `btree_cursor_points_to` returns the raw nonzero status of a
failed implicit re-coupling of an UNCOUPLED cursor through its
`ham_bool_t` return value (so callers reading it as a boolean cannot
tell it from a positive answer, which is `1`), while on a NIL cursor it
returns `0` without touching anything. -/
theorem points_to_returns_raw_status
    (env : Env) (w : World) (cid kp ks : Nat) :
    ((w.curs cid).uncoupled = true →
      (btree_cursor_couple env w cid).1 ≠ 0 →
      (btree_cursor_points_to env w cid kp ks).1 =
        (btree_cursor_couple env w cid).1) ∧
    (btree_cursor_is_nil (w.curs cid) = true →
      btree_cursor_points_to env w cid kp ks = (0, w)) ∧
    ((w.curs cid).uncoupled = false → (w.curs cid).coupled = true →
      (w.curs cid).page = kp → (w.curs cid).index = ks →
      (btree_cursor_points_to env w cid kp ks).1 = 1) := by
  refine ⟨?_, ?_, ?_⟩
  · intro hu hst
    unfold btree_cursor_points_to
    simp [hu, hst]
  · intro hnil
    have hu : (w.curs cid).uncoupled = false := by
      unfold btree_cursor_is_nil at hnil
      rcases h : (w.curs cid).uncoupled with _ | _
      · rfl
      · rw [h] at hnil; simp at hnil
    have hc : (w.curs cid).coupled = false := by
      unfold btree_cursor_is_nil at hnil
      rcases h : (w.curs cid).coupled with _ | _
      · rfl
      · rw [h] at hnil; simp at hnil
    unfold btree_cursor_points_to
    simp [hu, hc]
  · intro hu hc hp hi
    unfold btree_cursor_points_to
    simp [hu, hc, hp, hi]

/-- Witness for C10: with a `find` oracle that misses, the boolean
query on the uncoupled cursor returns the raw `KEY_NOT_FOUND` status,
and on a NIL cursor it returns `0`. -/
theorem points_to_returns_raw_status_witness :
    ((btree_cursor_points_to envTriv wUnc 0 3 4).1 =
      (btree_cursor_couple envTriv wUnc 0).1 ∧
     (btree_cursor_couple envTriv wUnc 0).1 = HAM_KEY_NOT_FOUND) ∧
    btree_cursor_points_to envTriv wUnc 1 3 4 = (0, wUnc) :=
  ⟨⟨(points_to_returns_raw_status envTriv wUnc 0 3 4).1 (by rfl)
      (by decide),
    by decide⟩,
   (points_to_returns_raw_status envTriv wUnc 1 3 4).2.1 (by rfl)⟩

/-- Record-size interpretation written from the spec's words (§4.5):
`BLOB_SIZE_TINY` → the high byte of the rid (encoded length);
`BLOB_SIZE_SMALL` → one machine word (`sizeof(ham_offset_t)` = 8);
`BLOB_SIZE_EMPTY` → 0; otherwise delegate to the blob store's
`get_datasize`.  Compared against the implementation in the C7
theorem. -/
def record_size_spec (env : Env) (f rid : Nat) : Except Nat Nat :=
  if f &&& KEY_BLOB_SIZE_TINY ≠ 0 then Except.ok (high_byte rid)
  else if f &&& KEY_BLOB_SIZE_SMALL ≠ 0 then Except.ok 8
  else if f &&& KEY_BLOB_SIZE_EMPTY ≠ 0 then Except.ok 0
  else env.datasize rid

/-- C7: on a coupled cursor, `btree_cursor_get_record_size` computes
the size from the key entry's own flags and rid when the key has no
duplicates, and from the fetched current duplicate entry's flags and
rid when it does, in both cases following the spec's size
interpretation; in the `BLOB_SIZE_EMPTY` case the result is `0`
whatever the blob store's `get_datasize` would answer (it is not
consulted). -/
theorem record_size_follows_spec (env : Env) (w : World) (cid : Nat)
    (hbe : env.backend = true)
    (hunc : (w.curs cid).uncoupled = false)
    (hcoup : (w.curs cid).coupled = true) :
    ((keyAt env (w.curs cid).page (w.curs cid).index).flags &&&
        KEY_HAS_DUPLICATES = 0 →
      btree_cursor_get_record_size env w cid =
        (record_size_spec env
          (keyAt env (w.curs cid).page (w.curs cid).index).flags
          (keyAt env (w.curs cid).page (w.curs cid).index).ptr, w)) ∧
    (∀ de, (keyAt env (w.curs cid).page (w.curs cid).index).flags &&&
        KEY_HAS_DUPLICATES ≠ 0 →
      env.dup_get (keyAt env (w.curs cid).page (w.curs cid).index).ptr
        (w.curs cid).dupe_id = Except.ok de →
      btree_cursor_get_record_size env w cid =
        (record_size_spec env de.flags de.rid, w)) ∧
    ((keyAt env (w.curs cid).page (w.curs cid).index).flags &&&
        KEY_HAS_DUPLICATES = 0 →
     (keyAt env (w.curs cid).page (w.curs cid).index).flags &&&
        KEY_BLOB_SIZE_TINY = 0 →
     (keyAt env (w.curs cid).page (w.curs cid).index).flags &&&
        KEY_BLOB_SIZE_SMALL = 0 →
     (keyAt env (w.curs cid).page (w.curs cid).index).flags &&&
        KEY_BLOB_SIZE_EMPTY ≠ 0 →
     ∀ ds, btree_cursor_get_record_size { env with datasize := ds } w cid =
        (Except.ok 0, w)) := by
  refine ⟨?_, ?_, ?_⟩
  · intro hnd
    unfold btree_cursor_get_record_size record_size_coupled record_size_spec
    simp [hbe, hunc, hcoup, hnd]
  · intro de hd hget
    unfold btree_cursor_get_record_size record_size_coupled record_size_spec
    simp [hbe, hunc, hcoup, hd, hget]
  · intro hnd htiny hsmall hempty ds
    unfold btree_cursor_get_record_size record_size_coupled
    simp [hbe, hunc, hcoup, keyAt] at hnd htiny hsmall hempty ⊢
    simp [hnd, htiny, hsmall, hempty]

/-- World for the record-size witness: cursor 0 coupled to page 1 slot
0; that slot's key has only the `BLOB_SIZE_EMPTY` flag. -/
def wEmptyRec : World :=
  { curs := fun i => if i = 0 then
      { coupled := true, uncoupled := false, txnop := false,
        page := 1, index := 0, dupe_id := 0, ukey := none,
        dupe_cache := default }
    else default,
    lists := fun q => if q = 1 then [0] else [] }

/-- Environment for the record-size witness: page 1 is a leaf with one
key flagged `BLOB_SIZE_EMPTY`; the blob store would answer an error. -/
def envEmptyRec : Env :=
  { envTriv with
    nodes := fun p => if p = 1 then
        { is_leaf := true,
          keys := [{ flags := KEY_BLOB_SIZE_EMPTY, ptr := 9, data := 1 }],
          ptr_left := 0, left := 0, right := 0 }
      else default }

/-- Witness for C7: a `BLOB_SIZE_EMPTY` key yields size 0 even with a
`get_datasize` oracle that would fail with status 77. -/
theorem record_size_follows_spec_witness :
    btree_cursor_get_record_size
      { envEmptyRec with datasize := fun _ => Except.error 77 }
      wEmptyRec 0 = (Except.ok 0, wEmptyRec) :=
  (record_size_follows_spec envEmptyRec wEmptyRec 0 (by rfl) (by rfl)
    (by rfl)).2.2 (by decide) (by decide) (by decide) (by decide)
    (fun _ => Except.error 77)

/-- C5: on an unchanging tree (hypothesis `hfind`: the external `find`
lands on the same `(page, slot)` that the key was copied from),
`uncouple` followed by the implicit coupling returns the cursor to the
same `(page, slot)` with the same `duplicate_index` — the dupe id saved
before the internal `find` call is restored after it, even though
`find` itself resets it to 0.  The cursor is back on the page's cursor
list. -/
theorem uncouple_couple_roundtrip (env : Env) (w : World)
    (cid p s d : Nat)
    (hbe : env.backend = true)
    (hunc : (w.curs cid).uncoupled = false)
    (hcoup : (w.curs cid).coupled = true)
    (hpage : (w.curs cid).page = p)
    (hidx : (w.curs cid).index = s)
    (hdupe : (w.curs cid).dupe_id = d)
    (hleaf : (env.nodes p).is_leaf = true)
    (hfind : env.find_key (keyAt env p s).data = Except.ok (p, s)) :
    (btree_cursor_uncouple env w cid false).1 = 0 ∧
    (btree_cursor_couple env
        (btree_cursor_uncouple env w cid false).2 cid).1 = 0 ∧
    ((btree_cursor_couple env
        (btree_cursor_uncouple env w cid false).2 cid).2.curs cid).coupled
      = true ∧
    ((btree_cursor_couple env
        (btree_cursor_uncouple env w cid false).2 cid).2.curs cid).page = p ∧
    ((btree_cursor_couple env
        (btree_cursor_uncouple env w cid false).2 cid).2.curs cid).index = s ∧
    ((btree_cursor_couple env
        (btree_cursor_uncouple env w cid false).2 cid).2.curs cid).dupe_id
      = d ∧
    cid ∈ (btree_cursor_couple env
        (btree_cursor_uncouple env w cid false).2 cid).2.lists p := by
  unfold btree_cursor_couple btree_cursor_find btree_cursor_uncouple
    btree_cursor_set_to_nil btree_cursor_is_nil
  simp [hbe, hunc, hcoup, hpage, hidx, hdupe, hfind, updCursor,
    page_add_cursor, page_remove_cursor]

/-- Environment for the round-trip witness: page 5 is a leaf whose slot
2 holds key bytes `21`, and `find` on `21` lands back on `(5, 2)`. -/
def envRoundtrip : Env :=
  { envTriv with
    nodes := fun p => if p = 5 then
        { is_leaf := true,
          keys := [default, default,
            { flags := 0, ptr := 0, data := 21 }],
          ptr_left := 0, left := 0, right := 0 }
      else default,
    find_key := fun k => if k = 21 then Except.ok (5, 2)
      else Except.error HAM_KEY_NOT_FOUND }

/-- World for the round-trip witness: cursor 0 coupled to `(5, 2)` with
duplicate index 3. -/
def wRoundtrip : World :=
  { curs := fun i => if i = 0 then coupledCursor else default,
    lists := fun q => if q = 5 then [0] else [] }

/-- Witness for C5: the concrete round trip comes back to page 5,
slot 2, duplicate index 3. -/
theorem uncouple_couple_roundtrip_witness :
    (btree_cursor_couple envRoundtrip
        (btree_cursor_uncouple envRoundtrip wRoundtrip 0 false).2 0).1 = 0 ∧
    ((btree_cursor_couple envRoundtrip
        (btree_cursor_uncouple envRoundtrip wRoundtrip 0 false).2 0).2.curs
          0).page = 5 ∧
    ((btree_cursor_couple envRoundtrip
        (btree_cursor_uncouple envRoundtrip wRoundtrip 0 false).2 0).2.curs
          0).index = 2 ∧
    ((btree_cursor_couple envRoundtrip
        (btree_cursor_uncouple envRoundtrip wRoundtrip 0 false).2 0).2.curs
          0).dupe_id = 3 := by
  have h := uncouple_couple_roundtrip envRoundtrip wRoundtrip 0 5 2 3
    (by rfl) (by rfl) (by rfl) (by rfl) (by rfl) (by rfl) (by rfl)
    (by rfl)
  exact ⟨h.2.1, h.2.2.2.1, h.2.2.2.2.1, h.2.2.2.2.2.1⟩

/-- C6: a `NEXT` move on a cursor coupled to the last slot of a leaf
without a right sibling, whose current key offers no further duplicate
(hypothesis `hdup`: the duplicate fetch, when attempted, answers
`KEY_NOT_FOUND`), returns `KEY_NOT_FOUND` and leaves the cursor COUPLED
to the same `(page, slot, duplicate_index)` with every page cursor list
unchanged. -/
theorem move_next_at_end_unchanged (env : Env) (fuel : Nat) (w : World)
    (cid : Nat) (useKey useRec : Bool) (fl : MoveFlags)
    (hbe : env.backend = true)
    (hfl1 : fl.first = false) (hfl2 : fl.last = false)
    (hfl3 : fl.next = true)
    (hunc : (w.curs cid).uncoupled = false)
    (hcoup : (w.curs cid).coupled = true)
    (hlast : (w.curs cid).index + 1 =
      (env.nodes (w.curs cid).page).keys.length)
    (hright : (env.nodes (w.curs cid).page).right = 0)
    (hdup : (keyAt env (w.curs cid).page (w.curs cid).index).flags &&&
        KEY_HAS_DUPLICATES ≠ 0 → fl.skip_dup = false →
      env.dup_get (keyAt env (w.curs cid).page (w.curs cid).index).ptr
        ((w.curs cid).dupe_id + 1) = Except.error HAM_KEY_NOT_FOUND) :
    (btree_cursor_move env fuel w cid useKey useRec fl).1 =
      HAM_KEY_NOT_FOUND ∧
    ((btree_cursor_move env fuel w cid useKey useRec fl).2.curs cid).coupled
      = true ∧
    ((btree_cursor_move env fuel w cid useKey useRec fl).2.curs cid).page =
      (w.curs cid).page ∧
    ((btree_cursor_move env fuel w cid useKey useRec fl).2.curs cid).index =
      (w.curs cid).index ∧
    ((btree_cursor_move env fuel w cid useKey useRec fl).2.curs cid).dupe_id
      = (w.curs cid).dupe_id ∧
    (btree_cursor_move env fuel w cid useKey useRec fl).2.lists = w.lists := by
  have hnotlt : ¬ ((w.curs cid).index + 1 <
      (env.nodes (w.curs cid).page).keys.length) := by omega
  unfold btree_cursor_move move_next move_next_coupled move_next_cross
    after_position
  by_cases hd : (keyAt env (w.curs cid).page (w.curs cid).index).flags &&&
      KEY_HAS_DUPLICATES ≠ 0 ∧ fl.skip_dup = false
  · have hget := hdup hd.1 hd.2
    by_cases ho : fl.only_dup = true
    · simp [hbe, hfl1, hfl2, hfl3, hunc, hcoup, hd.1, hd.2, hget, ho,
        updCursor, HAM_KEY_NOT_FOUND]
    · simp only [Bool.not_eq_true] at ho
      simp [hbe, hfl1, hfl2, hfl3, hunc, hcoup, hd.1, hd.2, hget, ho,
        hnotlt, hright, updCursor, HAM_KEY_NOT_FOUND]
  · rcases Decidable.not_and_iff_or_not.mp hd with hd1 | hd2
    · simp only [ne_eq, Decidable.not_not] at hd1
      by_cases ho : fl.only_dup = true
      · simp [hbe, hfl1, hfl2, hfl3, hunc, hcoup, hd1, ho, updCursor,
          HAM_KEY_NOT_FOUND]
      · simp only [Bool.not_eq_true] at ho
        simp [hbe, hfl1, hfl2, hfl3, hunc, hcoup, hd1, ho, hnotlt,
          hright, updCursor, HAM_KEY_NOT_FOUND]
    · have hskip : fl.skip_dup = true := by
        rcases h : fl.skip_dup with _ | _
        · exact absurd h hd2
        · rfl
      by_cases ho : fl.only_dup = true
      · simp [hbe, hfl1, hfl2, hfl3, hunc, hcoup, hskip, ho, updCursor,
          HAM_KEY_NOT_FOUND]
      · simp only [Bool.not_eq_true] at ho
        simp [hbe, hfl1, hfl2, hfl3, hunc, hcoup, hskip, ho, hnotlt,
          hright, updCursor, HAM_KEY_NOT_FOUND]

/-- The flag word of a plain `HAM_CURSOR_NEXT` move. -/
def flNext : MoveFlags :=
  { first := false, last := false, next := true, prev := false,
    skip_dup := false, only_dup := false }

/-- Environment for the end-of-tree witness: page 2 is a single-key
leaf with no right sibling. -/
def envEnd : Env :=
  { envTriv with
    nodes := fun p => if p = 2 then
        { is_leaf := true,
          keys := [{ flags := 0, ptr := 0, data := 9 }],
          ptr_left := 0, left := 0, right := 0 }
      else default }

/-- World for the end-of-tree witness: cursor 0 coupled to the last
(only) slot of page 2. -/
def wEnd : World :=
  { curs := fun i => if i = 0 then
      { coupled := true, uncoupled := false, txnop := false,
        page := 2, index := 0, dupe_id := 0, ukey := none,
        dupe_cache := default }
    else default,
    lists := fun q => if q = 2 then [0] else [] }

/-- Witness for C6: `NEXT` at the end of the concrete one-key tree
returns `KEY_NOT_FOUND` with position and cursor lists intact. -/
theorem move_next_at_end_unchanged_witness :
    (btree_cursor_move envEnd 10 wEnd 0 false false flNext).1 =
      HAM_KEY_NOT_FOUND ∧
    ((btree_cursor_move envEnd 10 wEnd 0 false false flNext).2.curs
      0).coupled = true ∧
    ((btree_cursor_move envEnd 10 wEnd 0 false false flNext).2.curs
      0).page = (wEnd.curs 0).page ∧
    ((btree_cursor_move envEnd 10 wEnd 0 false false flNext).2.curs
      0).index = (wEnd.curs 0).index ∧
    ((btree_cursor_move envEnd 10 wEnd 0 false false flNext).2.curs
      0).dupe_id = (wEnd.curs 0).dupe_id ∧
    (btree_cursor_move envEnd 10 wEnd 0 false false flNext).2.lists =
      wEnd.lists :=
  move_next_at_end_unchanged envEnd 10 wEnd 0 false false flNext
    (by rfl) (by rfl) (by rfl) (by rfl) (by rfl) (by rfl) (by rfl)
    (by rfl) (fun h => absurd h (by decide))

/-! ## Bulk uncouple: helper lemmas about the loop -/

/-- Well-formedness of one cursor found on page `p`'s cursor list: it
is either btree-coupled to `p` (with the UNCOUPLED bit clear), or it is
neither btree-coupled nor coupled to a txn op. -/
def okOnList (w : World) (p cid : Nat) : Prop :=
  ((w.curs cid).coupled = true ∧ (w.curs cid).page = p ∧
    (w.curs cid).uncoupled = false) ∨
  ((w.curs cid).coupled = false ∧ (w.curs cid).txnop = false)

instance (w : World) (p cid : Nat) : Decidable (okOnList w p cid) := by
  unfold okOnList; infer_instance

/-- One loop iteration for `cid` does not change any other cursor's
state or list membership. -/
theorem uncouple_step_frame (env : Env) (start cid other : Nat)
    (acc : World × Bool) (hne : other ≠ cid) :
    (uncouple_all_step env start cid acc).1.curs other =
      acc.1.curs other ∧
    ∀ q, (other ∈ (uncouple_all_step env start cid acc).1.lists q ↔
      other ∈ acc.1.lists q) := by
  unfold uncouple_all_step uncouple_all_uncouple_substep
    btree_cursor_uncouple
  by_cases h1 : ((acc.1.curs cid).coupled || (acc.1.curs cid).txnop) = true
  · by_cases h2 : (acc.1.curs cid).index < start
    · simp [h1, h2]
    · by_cases h3 : ((acc.1.curs cid).uncoupled ||
          btree_cursor_is_nil (acc.1.curs cid)) = true
      · simp [h1, h2, h3]
      · refine ⟨?_, ?_⟩
        · simp [h1, h2, h3, updCursor, page_remove_cursor, hne]
        · intro q
          simp only [h1, h2, h3, if_true, if_false, if_neg, if_pos,
            updCursor, page_remove_cursor]
          by_cases hq : q = (acc.1.curs cid).page
          · simp [h1, h2, h3, hq, List.mem_filter, hne]
          · simp [h1, h2, h3, hq]
  · simp [h1]

/-- The loop does not change the state or membership of a cursor that
is not on the iterated list. -/
theorem uncouple_loop_frame (env : Env) (start : Nat) (l : List Nat)
    (acc : World × Bool) (other : Nat) (hno : other ∉ l) :
    (uncouple_all_loop env start l acc).1.curs other =
      acc.1.curs other ∧
    ∀ q, (other ∈ (uncouple_all_loop env start l acc).1.lists q ↔
      other ∈ acc.1.lists q) := by
  induction l generalizing acc with
  | nil => exact ⟨rfl, fun q => Iff.rfl⟩
  | cons h t ih =>
      have hneh : other ≠ h := fun e => hno (e ▸ List.mem_cons_self h t)
      have hnot : other ∉ t := fun m => hno (List.mem_cons_of_mem h m)
      have hstep := uncouple_step_frame env start h other acc hneh
      have hrec := ih (uncouple_all_step env start h acc) hnot
      exact ⟨hrec.1.trans hstep.1, fun q => (hrec.2 q).trans (hstep.2 q)⟩

/-- The `skipped` flag is sticky across one iteration. -/
theorem uncouple_step_sticky (env : Env) (start cid : Nat)
    (acc : World × Bool) (h : acc.2 = true) :
    (uncouple_all_step env start cid acc).2 = true := by
  unfold uncouple_all_step
  by_cases h1 : ((acc.1.curs cid).coupled || (acc.1.curs cid).txnop) = true
  · by_cases h2 : (acc.1.curs cid).index < start
    · simp [h1, h2]
    · simp [h1, h2, h]
  · simp [h1, h]

/-- The `skipped` flag is sticky across the whole loop. -/
theorem uncouple_loop_sticky (env : Env) (start : Nat) (l : List Nat)
    (acc : World × Bool) (h : acc.2 = true) :
    (uncouple_all_loop env start l acc).2 = true := by
  induction l generalizing acc with
  | nil => exact h
  | cons hd t ih =>
      exact ih (uncouple_all_step env start hd acc)
        (uncouple_step_sticky env start hd acc h)

/-- A coupled (or txn-op) cursor below `start` turns its own iteration
into a pure skip that raises the `skipped` flag. -/
theorem uncouple_step_self_skip (env : Env) (start cid : Nat)
    (acc : World × Bool)
    (hcond : (acc.1.curs cid).coupled = true ∨ (acc.1.curs cid).txnop = true)
    (hlt : (acc.1.curs cid).index < start) :
    uncouple_all_step env start cid acc = (acc.1, true) := by
  unfold uncouple_all_step
  rcases hcond with hc | ht
  · simp [hc, hlt]
  · simp [ht, hlt]

/-- A coupled cursor at `index ≥ start` is uncoupled by its own
iteration: the key bytes are copied into a fresh uncoupled key, the
cursor is unlinked from its page's list (the uncouple call runs with
flags `0`), and only the state bits shown change. -/
theorem uncouple_step_self_process (env : Env) (start cid : Nat)
    (acc : World × Bool)
    (hc : (acc.1.curs cid).coupled = true)
    (hu : (acc.1.curs cid).uncoupled = false)
    (hge : ¬ (acc.1.curs cid).index < start) :
    uncouple_all_step env start cid acc =
      (updCursor (page_remove_cursor acc.1 (acc.1.curs cid).page cid) cid
        (fun c => { c with coupled := false, uncoupled := true, ukey := some (keyAt env (acc.1.curs cid).page (acc.1.curs cid).index).data }),
       acc.2) := by
  unfold uncouple_all_step uncouple_all_uncouple_substep
    btree_cursor_uncouple btree_cursor_is_nil
  simp [hc, hu, hge]

/-- If some listed cursor is coupled (or txn-op) below `start`, the
loop ends with the `skipped` flag raised. -/
theorem uncouple_loop_skip_of_mem (env : Env) (start : Nat)
    (l : List Nat) (acc : World × Bool) (cid : Nat)
    (hnd : l.Nodup) (hmem : cid ∈ l)
    (hcond : (acc.1.curs cid).coupled = true ∨ (acc.1.curs cid).txnop = true)
    (hlt : (acc.1.curs cid).index < start) :
    (uncouple_all_loop env start l acc).2 = true := by
  induction l generalizing acc with
  | nil => cases hmem
  | cons h t ih =>
      rcases List.mem_cons.mp hmem with he | hmt
      · subst he
        show (uncouple_all_loop env start t
          (uncouple_all_step env start cid acc)).2 = true
        rw [uncouple_step_self_skip env start cid acc hcond hlt]
        exact uncouple_loop_sticky env start t (acc.1, true) rfl
      · have hne : cid ≠ h := by
          intro e; subst e; exact (List.nodup_cons.mp hnd).1 hmt
        have hframe := uncouple_step_frame env start h cid acc hne
        exact ih (uncouple_all_step env start h acc)
          (List.nodup_cons.mp hnd).2 hmt
          (by rw [hframe.1]; exact hcond) (by rw [hframe.1]; exact hlt)

/-- If no listed cursor is coupled (or txn-op) below `start`, the loop
never raises the `skipped` flag. -/
theorem uncouple_loop_no_skip (env : Env) (start : Nat) (l : List Nat)
    (acc : World × Bool) (hnd : l.Nodup) (hsk : acc.2 = false)
    (hnone : ∀ cid ∈ l,
      ((acc.1.curs cid).coupled = true ∨ (acc.1.curs cid).txnop = true) →
      ¬ (acc.1.curs cid).index < start) :
    (uncouple_all_loop env start l acc).2 = false := by
  induction l generalizing acc with
  | nil => exact hsk
  | cons h t ih =>
      have hstep2 : (uncouple_all_step env start h acc).2 = false := by
        unfold uncouple_all_step
        by_cases h1 : ((acc.1.curs h).coupled || (acc.1.curs h).txnop) = true
        · have hor : (acc.1.curs h).coupled = true ∨
              (acc.1.curs h).txnop = true := by
            rcases Bool.or_eq_true_iff.mp h1 with hc | ht
            · exact Or.inl hc
            · exact Or.inr ht
          have hnlt := hnone h (List.mem_cons_self h t) hor
          simp [h1, hnlt, hsk]
        · simp [h1, hsk]
      have hnone2 : ∀ cid ∈ t,
          (((uncouple_all_step env start h acc).1.curs cid).coupled = true ∨
           ((uncouple_all_step env start h acc).1.curs cid).txnop = true) →
          ¬ ((uncouple_all_step env start h acc).1.curs cid).index < start := by
        intro cid hmt
        have hne : cid ≠ h := by
          intro e; subst e; exact (List.nodup_cons.mp hnd).1 hmt
        rw [(uncouple_step_frame env start h cid acc hne).1]
        exact hnone cid (List.mem_cons_of_mem h hmt)
      exact ih (uncouple_all_step env start h acc)
        (List.nodup_cons.mp hnd).2 hstep2 hnone2

/-- Through the whole loop, a coupled (or txn-op) cursor below `start`
keeps its state and all its list memberships. -/
theorem uncouple_loop_skips_small (env : Env) (start : Nat)
    (l : List Nat) (acc : World × Bool) (cid : Nat)
    (hnd : l.Nodup) (hmem : cid ∈ l)
    (hcond : (acc.1.curs cid).coupled = true ∨ (acc.1.curs cid).txnop = true)
    (hlt : (acc.1.curs cid).index < start) :
    (uncouple_all_loop env start l acc).1.curs cid = acc.1.curs cid ∧
    ∀ q, (cid ∈ (uncouple_all_loop env start l acc).1.lists q ↔
      cid ∈ acc.1.lists q) := by
  induction l generalizing acc with
  | nil => exact ⟨rfl, fun q => Iff.rfl⟩
  | cons h t ih =>
      rcases List.mem_cons.mp hmem with he | hmt
      · subst he
        have hrw := uncouple_step_self_skip env start cid acc hcond hlt
        have hframe := uncouple_loop_frame env start t (acc.1, true) cid
          (fun hmt => (List.nodup_cons.mp hnd).1 hmt)
        constructor
        · show (uncouple_all_loop env start t
            (uncouple_all_step env start cid acc)).1.curs cid = _
          rw [hrw]; exact hframe.1
        · intro q
          show cid ∈ (uncouple_all_loop env start t
            (uncouple_all_step env start cid acc)).1.lists q ↔ _
          rw [hrw]; exact hframe.2 q
      · have hne : cid ≠ h := by
          intro e; subst e; exact (List.nodup_cons.mp hnd).1 hmt
        have hframe := uncouple_step_frame env start h cid acc hne
        have hrec := ih (uncouple_all_step env start h acc)
          (List.nodup_cons.mp hnd).2 hmt
          (by rw [hframe.1]; exact hcond) (by rw [hframe.1]; exact hlt)
        exact ⟨hrec.1.trans hframe.1,
          fun q => (hrec.2 q).trans (hframe.2 q)⟩

/-- Through the whole loop, a coupled cursor at `index ≥ start` ends
UNCOUPLED, holding a copy of the key bytes at its old slot, with its
dupe id intact, and off its page's list (and off any list it was not
on before). -/
theorem uncouple_loop_uncouples_large (env : Env) (start : Nat)
    (l : List Nat) (acc : World × Bool) (cid : Nat)
    (hnd : l.Nodup) (hmem : cid ∈ l)
    (hc : (acc.1.curs cid).coupled = true)
    (hu : (acc.1.curs cid).uncoupled = false)
    (hge : ¬ (acc.1.curs cid).index < start) :
    ((uncouple_all_loop env start l acc).1.curs cid).coupled = false ∧
    ((uncouple_all_loop env start l acc).1.curs cid).uncoupled = true ∧
    ((uncouple_all_loop env start l acc).1.curs cid).ukey =
      some (keyAt env (acc.1.curs cid).page (acc.1.curs cid).index).data ∧
    ((uncouple_all_loop env start l acc).1.curs cid).dupe_id =
      (acc.1.curs cid).dupe_id ∧
    ∀ q, (cid ∈ (uncouple_all_loop env start l acc).1.lists q ↔
      (cid ∈ acc.1.lists q ∧ q ≠ (acc.1.curs cid).page)) := by
  induction l generalizing acc with
  | nil => cases hmem
  | cons h t ih =>
      rcases List.mem_cons.mp hmem with he | hmt
      · subst he
        have hrw := uncouple_step_self_process env start cid acc hc hu hge
        have hframe := uncouple_loop_frame env start t
          (updCursor (page_remove_cursor acc.1 (acc.1.curs cid).page cid) cid
            (fun c => { c with coupled := false, uncoupled := true, ukey := some (keyAt env (acc.1.curs cid).page (acc.1.curs cid).index).data }),
           acc.2) cid
          (fun hmt => (List.nodup_cons.mp hnd).1 hmt)
        have hloop : uncouple_all_loop env start (cid :: t) acc =
            uncouple_all_loop env start t
              (uncouple_all_step env start cid acc) := rfl
        rw [hloop, hrw]
        refine ⟨?_, ?_, ?_, ?_, ?_⟩
        · rw [hframe.1]; simp [updCursor, page_remove_cursor]
        · rw [hframe.1]; simp [updCursor, page_remove_cursor]
        · rw [hframe.1]; simp [updCursor, page_remove_cursor]
        · rw [hframe.1]; simp [updCursor, page_remove_cursor]
        · intro q
          rw [hframe.2 q]
          simp only [updCursor, page_remove_cursor]
          by_cases hq : q = (acc.1.curs cid).page
          · simp [hq, List.mem_filter]
          · simp [hq]
      · have hne : cid ≠ h := by
          intro e; subst e; exact (List.nodup_cons.mp hnd).1 hmt
        have hframe := uncouple_step_frame env start h cid acc hne
        have hrec := ih (uncouple_all_step env start h acc)
          (List.nodup_cons.mp hnd).2 hmt
          (by rw [hframe.1]; exact hc) (by rw [hframe.1]; exact hu)
          (by rw [hframe.1]; exact hge)
        have hloop2 : uncouple_all_loop env start (h :: t) acc =
            uncouple_all_loop env start t
              (uncouple_all_step env start h acc) := rfl
        rw [hloop2]
        refine ⟨hrec.1, hrec.2.1, ?_, ?_, ?_⟩
        · rw [hrec.2.2.1, hframe.1]
        · rw [hrec.2.2.2.1, hframe.1]
        · intro q
          rw [hrec.2.2.2.2 q, hframe.2 q, hframe.1]

/-- C2: after a successful `btree_uncouple_all_cursors(page, start)` on
a well-formed cursor list, every cursor that was COUPLED at a slot
below `start` is untouched and still listed; every cursor that was
COUPLED at a slot at or past `start` is UNCOUPLED and off the list; and
when no cursor was coupled below `start`, the page's cursor list head
is cleared to empty. -/
theorem uncouple_all_cursors_partition (env : Env) (w : World)
    (p start : Nat)
    (hnd : (w.lists p).Nodup)
    (hok : ∀ cid ∈ w.lists p, okOnList w p cid) :
    (∀ cid ∈ w.lists p, (w.curs cid).coupled = true →
      (w.curs cid).index < start →
      ((btree_uncouple_all_cursors env w p start).2.curs cid =
        w.curs cid ∧
       cid ∈ (btree_uncouple_all_cursors env w p start).2.lists p)) ∧
    (∀ cid ∈ w.lists p, (w.curs cid).coupled = true →
      start ≤ (w.curs cid).index →
      (((btree_uncouple_all_cursors env w p start).2.curs cid).uncoupled =
          true ∧
       ((btree_uncouple_all_cursors env w p start).2.curs cid).coupled =
          false ∧
       cid ∉ (btree_uncouple_all_cursors env w p start).2.lists p)) ∧
    ((∀ cid ∈ w.lists p, (w.curs cid).coupled = true →
        start ≤ (w.curs cid).index) →
      (btree_uncouple_all_cursors env w p start).2.lists p = []) := by
  refine ⟨?_, ?_, ?_⟩
  · intro cid hmem hc hlt
    have hsk : (uncouple_all_loop env start (w.lists p) (w, false)).2 =
        true :=
      uncouple_loop_skip_of_mem env start (w.lists p) (w, false) cid hnd
        hmem (Or.inl hc) hlt
    have hsmall := uncouple_loop_skips_small env start (w.lists p)
      (w, false) cid hnd hmem (Or.inl hc) hlt
    have hres : (btree_uncouple_all_cursors env w p start).2 =
        (uncouple_all_loop env start (w.lists p) (w, false)).1 := by
      unfold btree_uncouple_all_cursors
      simp [hsk]
    rw [hres]
    exact ⟨hsmall.1, (hsmall.2 p).mpr hmem⟩
  · intro cid hmem hc hge
    have hup : (w.curs cid).uncoupled = false ∧ (w.curs cid).page = p := by
      rcases hok cid hmem with ⟨h1, h2, h3⟩ | ⟨h1, h2⟩
      · exact ⟨h3, h2⟩
      · rw [hc] at h1; cases h1
    have hnlt : ¬ (w.curs cid).index < start := by omega
    have hlarge := uncouple_loop_uncouples_large env start (w.lists p)
      (w, false) cid hnd hmem hc hup.1 hnlt
    by_cases hA2 : (uncouple_all_loop env start (w.lists p) (w, false)).2 =
        true
    · have hres : (btree_uncouple_all_cursors env w p start).2 =
          (uncouple_all_loop env start (w.lists p) (w, false)).1 := by
        unfold btree_uncouple_all_cursors
        simp [hA2]
      rw [hres]
      refine ⟨hlarge.2.1, hlarge.1, ?_⟩
      intro hmem2
      rcases (hlarge.2.2.2.2 p).mp hmem2 with ⟨_, hpq⟩
      exact hpq hup.2.symm
    · have hA2f : (uncouple_all_loop env start (w.lists p) (w, false)).2 =
          false := by
        revert hA2
        cases (uncouple_all_loop env start (w.lists p) (w, false)).2 <;> simp
      have hres : (btree_uncouple_all_cursors env w p start).2 =
          { (uncouple_all_loop env start (w.lists p) (w, false)).1 with
            lists := fun q => if q = p then []
              else (uncouple_all_loop env start (w.lists p) (w, false)).1.lists q } := by
        unfold btree_uncouple_all_cursors
        simp [hA2f]
      rw [hres]
      exact ⟨hlarge.2.1, hlarge.1, by simp⟩
  · intro hall
    have hnone : ∀ cid ∈ w.lists p,
        ((w.curs cid).coupled = true ∨ (w.curs cid).txnop = true) →
        ¬ (w.curs cid).index < start := by
      intro cid hmem hcond
      rcases hok cid hmem with ⟨h1, h2, h3⟩ | ⟨h1, h2⟩
      · have := hall cid hmem h1; omega
      · rcases hcond with hcc | hct
        · rw [h1] at hcc; cases hcc
        · rw [h2] at hct; cases hct
    have hA2f := uncouple_loop_no_skip env start (w.lists p) (w, false)
      hnd rfl hnone
    unfold btree_uncouple_all_cursors
    simp [hA2f]

/-- Environment for the bulk-uncouple witnesses: page 7 is a leaf with
six keys whose key bytes are 10..15. -/
def envBulk : Env :=
  { envTriv with
    nodes := fun p => if p = 7 then
        { is_leaf := true,
          keys := [{ flags := 0, ptr := 0, data := 10 },
                   { flags := 0, ptr := 0, data := 11 },
                   { flags := 0, ptr := 0, data := 12 },
                   { flags := 0, ptr := 0, data := 13 },
                   { flags := 0, ptr := 0, data := 14 },
                   { flags := 0, ptr := 0, data := 15 }],
          ptr_left := 0, left := 0, right := 0 }
      else default }

/-- A cursor coupled to page 7 at the given slot. -/
def bulkCursor (slot : Nat) : btree_cursor_t :=
  { coupled := true, uncoupled := false, txnop := false,
    page := 7, index := slot, dupe_id := 0, ukey := none,
    dupe_cache := default }

/-- World for the bulk-uncouple witnesses (scenario D of the spec):
cursors 1, 2, 3 coupled to slots 0, 3, 5 of page 7. -/
def wBulk : World :=
  { curs := fun i =>
      if i = 1 then bulkCursor 0
      else if i = 2 then bulkCursor 3
      else if i = 3 then bulkCursor 5
      else default,
    lists := fun q => if q = 7 then [1, 2, 3] else [] }

/-- Witness for C2: `uncouple_all_cursors(page 7, 3)` keeps cursor 1
(slot 0) coupled and listed, and uncouples cursors 2 and 3 (slots 3
and 5) off the list. -/
theorem uncouple_all_cursors_partition_witness :
    ((btree_uncouple_all_cursors envBulk wBulk 7 3).2.curs 1 =
        wBulk.curs 1 ∧
     1 ∈ (btree_uncouple_all_cursors envBulk wBulk 7 3).2.lists 7) ∧
    (((btree_uncouple_all_cursors envBulk wBulk 7 3).2.curs 2).uncoupled =
        true ∧
     ((btree_uncouple_all_cursors envBulk wBulk 7 3).2.curs 2).coupled =
        false ∧
     2 ∉ (btree_uncouple_all_cursors envBulk wBulk 7 3).2.lists 7) ∧
    (((btree_uncouple_all_cursors envBulk wBulk 7 3).2.curs 3).uncoupled =
        true ∧
     ((btree_uncouple_all_cursors envBulk wBulk 7 3).2.curs 3).coupled =
        false ∧
     3 ∉ (btree_uncouple_all_cursors envBulk wBulk 7 3).2.lists 7) :=
  ⟨(uncouple_all_cursors_partition envBulk wBulk 7 3 (by decide)
      (by decide)).1 1 (by decide) (by rfl) (by decide),
   (uncouple_all_cursors_partition envBulk wBulk 7 3 (by decide)
      (by decide)).2.1 2 (by decide) (by rfl) (by decide),
   (uncouple_all_cursors_partition envBulk wBulk 7 3 (by decide)
      (by decide)).2.1 3 (by decide) (by rfl) (by decide)⟩

/-- Counterexample to C3 as stated: in `btree_uncouple_all_cursors` the
loop body's uncouple call is `btree_cursor_uncouple(btc, 0)` — not
`NO_REMOVE` — so right after that call (before the `set_next_in_page(0)`
/ `set_previous_in_page(0)` line) cursor 2, processed at slot 3 ≥ 3, is
already *off* page 7's cursor list, contradicting "the uncoupling step
itself does not remove the cursor from the page's cursor list"; the
third conjunct shows this call is exactly what the loop body does. -/
theorem uncouple_all_no_remove_counterexample :
    2 ∉ (uncouple_all_uncouple_substep envBulk wBulk 2).lists 7 ∧
    ((uncouple_all_uncouple_substep envBulk wBulk 2).curs 2).uncoupled =
      true ∧
    uncouple_all_step envBulk 3 2 (wBulk, false) =
      (uncouple_all_uncouple_substep envBulk wBulk 2, false) :=
  ⟨by decide, by decide, rfl⟩

/-- C3 amended: during `btree_uncouple_all_cursors(page, start)`, every
COUPLED cursor with `slot_index ≥ start` is uncoupled by a call with
flags `0` (not `NO_REMOVE`), so the uncoupling step itself already
unlinks the cursor from the page's cursor list; the subsequent clearing
of the cursor's next/previous page pointers adds nothing to list
membership (the loop body equals the bare uncouple call), and iteration
stays safe because the successor was saved before the body ran. -/
theorem uncouple_all_uncouples_with_flags_zero (env : Env) (w : World)
    (start cid : Nat) (sk : Bool)
    (hc : (w.curs cid).coupled = true)
    (hu : (w.curs cid).uncoupled = false)
    (hge : start ≤ (w.curs cid).index) :
    uncouple_all_step env start cid (w, sk) =
      (uncouple_all_uncouple_substep env w cid, sk) ∧
    cid ∉ (uncouple_all_uncouple_substep env w cid).lists
      ((w.curs cid).page) ∧
    ((uncouple_all_uncouple_substep env w cid).curs cid).coupled = false ∧
    ((uncouple_all_uncouple_substep env w cid).curs cid).uncoupled =
      true := by
  have hnlt : ¬ (w.curs cid).index < start := by omega
  refine ⟨?_, ?_, ?_, ?_⟩
  · unfold uncouple_all_step
    simp [hc, hnlt]
  · unfold uncouple_all_uncouple_substep btree_cursor_uncouple
      btree_cursor_is_nil
    simp [hc, hu, updCursor, page_remove_cursor, List.mem_filter]
  · unfold uncouple_all_uncouple_substep btree_cursor_uncouple
      btree_cursor_is_nil
    simp [hc, hu, updCursor, page_remove_cursor]
  · unfold uncouple_all_uncouple_substep btree_cursor_uncouple
      btree_cursor_is_nil
    simp [hc, hu, updCursor, page_remove_cursor]

/-- Witness for the amended C3 at cursor 3 (slot 5 ≥ 3) of the concrete
bulk world. -/
theorem uncouple_all_uncouples_with_flags_zero_witness :
    uncouple_all_step envBulk 3 3 (wBulk, false) =
      (uncouple_all_uncouple_substep envBulk wBulk 3, false) ∧
    3 ∉ (uncouple_all_uncouple_substep envBulk wBulk 3).lists
      ((wBulk.curs 3).page) ∧
    ((uncouple_all_uncouple_substep envBulk wBulk 3).curs 3).coupled =
      false ∧
    ((uncouple_all_uncouple_substep envBulk wBulk 3).curs 3).uncoupled =
      true :=
  uncouple_all_uncouples_with_flags_zero envBulk wBulk 3 3 false
    (by rfl) (by rfl) (by decide)

/-! ## Error-state analysis of the cursor operations (C4)

The spec's §7 invariant says a failing operation leaves the cursor
"either unchanged or ... NIL with all owned buffers released".  The
predicates below describe the states the code can actually end in;
the C4 theorems relate the two. -/

/-- Two cursor states equal in every field except the duplicate cache
(which the entry points clear as a matter of course). -/
def eqExceptCache (c c2 : btree_cursor_t) : Prop :=
  c2.coupled = c.coupled ∧ c2.uncoupled = c.uncoupled ∧
  c2.txnop = c.txnop ∧ c2.page = c.page ∧ c2.index = c.index ∧
  c2.dupe_id = c.dupe_id ∧ c2.ukey = c.ukey

/-- The positional state of the claim: same mode bits, page, slot,
dupe id and owned key buffer. -/
def samePos (c c2 : btree_cursor_t) : Prop :=
  c2.coupled = c.coupled ∧ c2.uncoupled = c.uncoupled ∧
  c2.page = c.page ∧ c2.index = c.index ∧ c2.dupe_id = c.dupe_id ∧
  c2.ukey = c.ukey

/-- Outcome (i): the cursor is positionally unchanged and its list
memberships are intact. -/
def unchangedPos (w w2 : World) (cid : Nat) : Prop :=
  samePos (w.curs cid) (w2.curs cid) ∧
  ∀ q, (cid ∈ w2.lists q ↔ cid ∈ w.lists q)

/-- Outcome (ii): NIL with the owned key buffer released and off every
page's cursor list. -/
def nilReleased (w2 : World) (cid : Nat) : Prop :=
  (w2.curs cid).coupled = false ∧ (w2.curs cid).uncoupled = false ∧
  (w2.curs cid).ukey = none ∧ ∀ q, cid ∉ w2.lists q

/-- Outcome (iii): a fully consistent COUPLED state — on a leaf, in
range, exactly on that page's cursor list, no stray key buffer. -/
def coupledConsistent (env : Env) (w2 : World) (cid : Nat) : Prop :=
  (w2.curs cid).coupled = true ∧ (w2.curs cid).uncoupled = false ∧
  (w2.curs cid).ukey = none ∧
  (env.nodes (w2.curs cid).page).is_leaf = true ∧
  (w2.curs cid).index < (env.nodes (w2.curs cid).page).keys.length ∧
  cid ∈ w2.lists ((w2.curs cid).page) ∧
  ∀ q, cid ∈ w2.lists q → q = (w2.curs cid).page

/-- Outcome (iv): an UNCOUPLED snapshot of the pre-call coupled
position — the key bytes of the old slot are saved, the dupe id kept,
and the cursor is off every list. -/
def uncoupledSnapshot (env : Env) (w w2 : World) (cid : Nat) : Prop :=
  (w.curs cid).coupled = true ∧ (w2.curs cid).coupled = false ∧
  (w2.curs cid).uncoupled = true ∧
  (w2.curs cid).ukey =
    some (keyAt env (w.curs cid).page (w.curs cid).index).data ∧
  (w2.curs cid).dupe_id = (w.curs cid).dupe_id ∧
  ∀ q, cid ∉ w2.lists q

/-- The four states any cursor operation of the excerpt can end in. -/
def errorOutcome (env : Env) (w w2 : World) (cid : Nat) : Prop :=
  unchangedPos w w2 cid ∨ nilReleased w2 cid ∨
  coupledConsistent env w2 cid ∨ uncoupledSnapshot env w w2 cid

/-- Structural well-formedness of the tree environment: leaves are
non-empty, the external `find` and `insert` land on valid leaf slots,
and leaf siblings are leaves. -/
def envWF (env : Env) : Prop :=
  (∀ p, (env.nodes p).is_leaf = true → 0 < (env.nodes p).keys.length) ∧
  (∀ k p s, env.find_key k = Except.ok (p, s) →
    (env.nodes p).is_leaf = true ∧ s < (env.nodes p).keys.length) ∧
  (∀ p, (env.nodes p).is_leaf = true → (env.nodes p).right ≠ 0 →
    (env.nodes ((env.nodes p).right)).is_leaf = true) ∧
  (∀ p, (env.nodes p).is_leaf = true → (env.nodes p).left ≠ 0 →
    (env.nodes ((env.nodes p).left)).is_leaf = true) ∧
  (∀ p s, env.insert_res = Except.ok (p, s) →
    (env.nodes p).is_leaf = true ∧ s < (env.nodes p).keys.length) ∧
  (∀ k st, env.find_key k = Except.error st → st ≠ 0)

/-- Well-formedness of one cursor (§8 invariants 1-4): the COUPLED and
UNCOUPLED bits exclude each other, list membership matches coupling, a
coupled cursor sits on a valid leaf slot and owns no key buffer, an
uncoupled cursor owns one, a NIL cursor owns none. -/
def cursorWF (env : Env) (w : World) (cid : Nat) : Prop :=
  ((w.curs cid).coupled = false ∨ (w.curs cid).uncoupled = false) ∧
  (∀ q, cid ∈ w.lists q →
    ((w.curs cid).coupled = true ∧ (w.curs cid).page = q)) ∧
  ((w.curs cid).coupled = true →
    ((env.nodes ((w.curs cid).page)).is_leaf = true ∧
     (w.curs cid).index < (env.nodes ((w.curs cid).page)).keys.length ∧
     cid ∈ w.lists ((w.curs cid).page) ∧ (w.curs cid).ukey = none)) ∧
  ((w.curs cid).uncoupled = true → (w.curs cid).ukey ≠ none) ∧
  ((w.curs cid).coupled = false → (w.curs cid).uncoupled = false →
    (w.curs cid).ukey = none)

/-- The cursor operations named by the spec's §7 error invariant. -/
inductive CursorOp where
  | mov (useKey useRec : Bool) (fl : MoveFlags)
  | find (keydata : Nat)
  | insert
  | erase
  | overwrite
deriving Repr

/-- Dispatch one cursor operation. -/
def runOp (env : Env) (fuel : Nat) (w : World) (cid : Nat) :
    CursorOp → Nat × World
  | CursorOp.mov useKey useRec fl =>
      btree_cursor_move env fuel w cid useKey useRec fl
  | CursorOp.find k => btree_cursor_find env w cid k
  | CursorOp.insert => btree_cursor_insert env w cid
  | CursorOp.erase => btree_cursor_erase env w cid
  | CursorOp.overwrite => btree_cursor_overwrite env w cid

/-- Transporting an outcome across a world change that only touches the
cursor's duplicate cache. -/
theorem errorOutcome_transport (env : Env) (w w2 w3 : World) (cid : Nat)
    (hc : eqExceptCache (w2.curs cid) (w3.curs cid))
    (hl : w3.lists = w2.lists)
    (h : errorOutcome env w w2 cid) : errorOutcome env w w3 cid := by
  obtain ⟨h1, h2, h3, h4, h5, h6, h7⟩ := hc
  rcases h with ⟨hs, hm⟩ | ⟨ha, hb, hk, hm⟩ | ⟨ha, hb, hk, hlf, hix, hmem, hu⟩ | ⟨ha, hb, hk, hky, hd, hm⟩
  · exact Or.inl ⟨⟨h1.trans hs.1, h2.trans hs.2.1, h4.trans hs.2.2.1,
      h5.trans hs.2.2.2.1, h6.trans hs.2.2.2.2.1, h7.trans hs.2.2.2.2.2⟩,
      fun q => by rw [hl]; exact hm q⟩
  · exact Or.inr (Or.inl ⟨h1.trans ha, h2.trans hb, h7.trans hk,
      fun q => by rw [hl]; exact hm q⟩)
  · refine Or.inr (Or.inr (Or.inl ⟨h1.trans ha, h2.trans hb, h7.trans hk,
      ?_, ?_, ?_, ?_⟩))
    · rw [h4]; exact hlf
    · rw [h4, h5]; exact hix
    · rw [h4, hl]; exact hmem
    · intro q hq; rw [h4]; exact hu q (by rw [← hl]; exact hq)
  · exact Or.inr (Or.inr (Or.inr ⟨ha, h1.trans hb, h2.trans hk,
      h7.trans hky, h6.trans hd, fun q => by rw [hl]; exact hm q⟩))

/-- Transporting an outcome across a change of the *base* world that
only touches the cursor's duplicate cache. -/
theorem errorOutcome_base_transport (env : Env) (w w0 w2 : World)
    (cid : Nat)
    (hc : eqExceptCache (w.curs cid) (w0.curs cid))
    (hl : w0.lists = w.lists)
    (h : errorOutcome env w0 w2 cid) : errorOutcome env w w2 cid := by
  obtain ⟨h1, h2, h3, h4, h5, h6, h7⟩ := hc
  rcases h with ⟨hs, hm⟩ | hrest
  · exact Or.inl ⟨⟨hs.1.trans h1, hs.2.1.trans h2, hs.2.2.1.trans h4,
      hs.2.2.2.1.trans h5, hs.2.2.2.2.1.trans h6, hs.2.2.2.2.2.trans h7⟩,
      fun q => (hm q).trans (by rw [hl])⟩
  · rcases hrest with hh | hh | ⟨ha, hb, hk, hky, hd, hm⟩
    · exact Or.inr (Or.inl hh)
    · exact Or.inr (Or.inr (Or.inl hh))
    · exact Or.inr (Or.inr (Or.inr ⟨h1 ▸ ha, hb, hk,
        by rw [hky, h4, h5], by rw [hd, h6], hm⟩))

/-- `btree_cursor_set_to_nil` on a well-formed cursor yields the
NIL-with-buffers-released state. -/
theorem set_to_nil_nilReleased (env : Env) (w : World) (cid : Nat)
    (hcw : cursorWF env w cid) :
    nilReleased (btree_cursor_set_to_nil w cid) cid := by
  obtain ⟨hmx, hmem, hcp, hun, hnil⟩ := hcw
  unfold btree_cursor_set_to_nil
  by_cases hu : (w.curs cid).uncoupled = true
  · have hc : (w.curs cid).coupled = false := by
      rcases hmx with h | h
      · exact h
      · rw [hu] at h; cases h
    refine ⟨by simp [hu, updCursor, hc], by simp [hu, updCursor],
      by simp [hu, updCursor], ?_⟩
    intro q hq
    simp only [hu, if_true, updCursor] at hq
    have := hmem q hq
    rw [hc] at this
    cases this.1
  · have hu2 : (w.curs cid).uncoupled = false := by
      rcases h : (w.curs cid).uncoupled with _ | _
      · rfl
      · exact absurd h hu
    by_cases hc : (w.curs cid).coupled = true
    · have hukey := (hcp hc).2.2.2
      refine ⟨by simp [hu2, hc, updCursor, page_remove_cursor],
        by simp [hu2, hc, updCursor, page_remove_cursor, hu2],
        by simp [hu2, hc, updCursor, page_remove_cursor, hukey], ?_⟩
      intro q hq
      simp only [hu2, hc, if_true, if_false, Bool.false_eq_true,
        updCursor, page_remove_cursor] at hq
      by_cases hpq : q = (w.curs cid).page
      · rw [if_pos hpq] at hq
        rcases List.mem_filter.mp hq with ⟨_, hne⟩
        simp at hne
      · rw [if_neg hpq] at hq
        exact hpq ((hmem q hq).2.symm)
    · have hc2 : (w.curs cid).coupled = false := by
        rcases h : (w.curs cid).coupled with _ | _
        · rfl
        · exact absurd h hc
      have hukey := hnil hc2 hu2
      refine ⟨by simp [hu2, hc2, updCursor],
        by simp [hu2, hc2, updCursor],
        by simp [hu2, hc2, updCursor, hukey], ?_⟩
      intro q hq
      simp only [hu2, hc2, if_false, Bool.false_eq_true, updCursor] at hq
      have := hmem q hq
      rw [hc2] at this
      cases this.1

/-- Reading the updated cursor back out of `updCursor`. -/
theorem updCursor_curs_self (w : World) (cid : Nat)
    (f : btree_cursor_t → btree_cursor_t) :
    (updCursor w cid f).curs cid = f (w.curs cid) := by
  simp [updCursor]

/-- `updCursor` leaves every cursor list alone. -/
theorem updCursor_lists (w : World) (cid : Nat)
    (f : btree_cursor_t → btree_cursor_t) :
    (updCursor w cid f).lists = w.lists := rfl

/-- `btree_cursor_find` on a well-formed cursor ends in one of the
outcome states; a zero status moreover means the cursor is in the
consistent COUPLED state at the slot the external `find` reported. -/
theorem find_outcome (env : Env) (w : World) (cid k : Nat)
    (hew : envWF env) (hcw : cursorWF env w cid) :
    errorOutcome env w (btree_cursor_find env w cid k).2 cid ∧
    ((btree_cursor_find env w cid k).1 = 0 →
      coupledConsistent env (btree_cursor_find env w cid k).2 cid) := by
  by_cases hbe : env.backend = true
  · have hnil := set_to_nil_nilReleased env w cid hcw
    rcases hfk : env.find_key k with st | ps
    · have hres : btree_cursor_find env w cid k =
          (st, btree_cursor_set_to_nil w cid) := by
        unfold btree_cursor_find
        simp [hbe, hfk]
      rw [hres]
      exact ⟨Or.inr (Or.inl hnil),
        fun h => absurd h (hew.2.2.2.2.2 k st hfk)⟩
    · obtain ⟨p, s⟩ := ps
      have hres : btree_cursor_find env w cid k =
          (0, updCursor (page_add_cursor (btree_cursor_set_to_nil w cid)
            p cid) cid
            (fun c => { c with coupled := true, page := p, index := s, dupe_id := 0 })) := by
        unfold btree_cursor_find
        simp [hbe, hfk]
      have hps := hew.2.1 k p s hfk
      rw [hres]
      have hcc : coupledConsistent env
          (updCursor (page_add_cursor (btree_cursor_set_to_nil w cid)
            p cid) cid
            (fun c => { c with coupled := true, page := p, index := s, dupe_id := 0 })) cid := by
        refine ⟨by simp [updCursor],
          by simp [updCursor, page_add_cursor, hnil.2.1],
          by simp [updCursor, page_add_cursor, hnil.2.2.1],
          by simp [updCursor, page_add_cursor, hps.1],
          by simp [updCursor, page_add_cursor, hps.2],
          by simp [updCursor, page_add_cursor], ?_⟩
        intro q hq
        simp only [updCursor_curs_self, updCursor, page_add_cursor] at hq ⊢
        by_cases hqp : q = p
        · simp [hqp]
        · rw [if_neg hqp] at hq
          exact absurd hq (hnil.2.2.2 q)
      exact ⟨Or.inr (Or.inr (Or.inl hcc)), fun _ => hcc⟩
  · have hbf : env.backend = false := by
      rcases h : env.backend with _ | _
      · rfl
      · exact absurd h hbe
    have hres : btree_cursor_find env w cid k =
        (HAM_NOT_INITIALIZED, w) := by
      unfold btree_cursor_find
      simp [hbf]
    rw [hres]
    exact ⟨Or.inl ⟨⟨rfl, rfl, rfl, rfl, rfl, rfl⟩, fun q => Iff.rfl⟩,
      fun h => by simp [HAM_NOT_INITIALIZED] at h⟩

/-- `btree_cursor_couple` restores the dupe id around the internal
`find`; its end state is one of the outcome states, and a zero status
means consistent COUPLED with the dupe id preserved. -/
theorem couple_outcome (env : Env) (w : World) (cid : Nat)
    (hew : envWF env) (hcw : cursorWF env w cid) :
    errorOutcome env w (btree_cursor_couple env w cid).2 cid ∧
    ((btree_cursor_couple env w cid).1 = 0 →
      coupledConsistent env (btree_cursor_couple env w cid).2 cid ∧
      ((btree_cursor_couple env w cid).2.curs cid).dupe_id =
        (w.curs cid).dupe_id) := by
  have hfind := find_outcome env w cid ((w.curs cid).ukey.getD 0) hew hcw
  have hres2 : (btree_cursor_couple env w cid).2 =
      updCursor (btree_cursor_find env w cid
        ((w.curs cid).ukey.getD 0)).2 cid
        (fun c => { c with dupe_id := (w.curs cid).dupe_id }) := rfl
  have hres1 : (btree_cursor_couple env w cid).1 =
      (btree_cursor_find env w cid ((w.curs cid).ukey.getD 0)).1 := rfl
  rw [hres1, hres2]
  constructor
  · rcases hfind.1 with ⟨hs, hm⟩ | ⟨ha, hb, hk, hm⟩ |
        ⟨ha, hb, hk, hlf, hix, hmem, hu⟩ | ⟨ha, hb, hk, hky, hd, hm⟩
    · exact Or.inl ⟨⟨by simp [updCursor_curs_self, hs.1],
        by simp [updCursor_curs_self, hs.2.1],
        by simp [updCursor_curs_self, hs.2.2.1],
        by simp [updCursor_curs_self, hs.2.2.2.1],
        by simp [updCursor_curs_self],
        by simp [updCursor_curs_self, hs.2.2.2.2.2]⟩,
        fun q => by rw [updCursor_lists]; exact hm q⟩
    · exact Or.inr (Or.inl ⟨by simp [updCursor_curs_self, ha],
        by simp [updCursor_curs_self, hb],
        by simp [updCursor_curs_self, hk],
        fun q => by rw [updCursor_lists]; exact hm q⟩)
    · refine Or.inr (Or.inr (Or.inl ⟨by simp [updCursor_curs_self, ha],
        by simp [updCursor_curs_self, hb],
        by simp [updCursor_curs_self, hk], ?_, ?_, ?_, ?_⟩))
      · simp only [updCursor_curs_self]
        simpa using hlf
      · simp only [updCursor_curs_self]
        simpa using hix
      · simp only [updCursor_curs_self, updCursor_lists]
        simpa using hmem
      · intro q hq
        simp only [updCursor_curs_self, updCursor_lists] at hq ⊢
        exact hu q hq
    · exact Or.inr (Or.inr (Or.inr ⟨ha,
        by simp [updCursor_curs_self, hb],
        by simp [updCursor_curs_self, hk],
        by simp [updCursor_curs_self, hky],
        by simp [updCursor_curs_self],
        fun q => by rw [updCursor_lists]; exact hm q⟩))
  · intro h
    have hcc := hfind.2 h
    obtain ⟨ha, hb, hk, hlf, hix, hmem, hu⟩ := hcc
    refine ⟨⟨by simp [updCursor_curs_self, ha],
      by simp [updCursor_curs_self, hb],
      by simp [updCursor_curs_self, hk], ?_, ?_, ?_, ?_⟩,
      by simp [updCursor_curs_self]⟩
    · simp only [updCursor_curs_self]
      simpa using hlf
    · simp only [updCursor_curs_self]
      simpa using hix
    · simp only [updCursor_curs_self, updCursor_lists]
      simpa using hmem
    · intro q hq
      simp only [updCursor_curs_self, updCursor_lists] at hq ⊢
      exact hu q hq

/-- The record-read step only ever touches the duplicate cache. -/
theorem read_record_step_fields (env : Env) (w : World) (cid : Nat)
    (entry : btree_key_t) :
    eqExceptCache (w.curs cid)
      ((read_record_step env w cid entry).2.curs cid) ∧
    (read_record_step env w cid entry).2.lists = w.lists := by
  have hid : eqExceptCache (w.curs cid) (w.curs cid) :=
    ⟨rfl, rfl, rfl, rfl, rfl, rfl, rfl⟩
  by_cases hA : entry.flags &&& KEY_HAS_DUPLICATES ≠ 0
  · by_cases hB : (w.curs cid).dupe_id ≠ 0
    · by_cases h2 : (w.curs cid).dupe_cache.rid = 0
      · rcases h3 : env.dup_get entry.ptr (w.curs cid).dupe_id with st | de
        · have hres : read_record_step env w cid entry = (st, w) := by
            unfold read_record_step
            simp [hA, hB, h2, h3]
          rw [hres]
          exact ⟨hid, rfl⟩
        · rcases h4 : env.read_rec_err de.rid with _ | st
          · have hres : read_record_step env w cid entry =
                (0, updCursor w cid (fun c => { c with dupe_cache := de })) := by
              unfold read_record_step
              simp [hA, hB, h2, h3, h4]
            rw [hres]
            exact ⟨by simp [eqExceptCache, updCursor_curs_self], rfl⟩
          · have hres : read_record_step env w cid entry =
                (st, updCursor w cid (fun c => { c with dupe_cache := de })) := by
              unfold read_record_step
              simp [hA, hB, h2, h3, h4]
            rw [hres]
            exact ⟨by simp [eqExceptCache, updCursor_curs_self], rfl⟩
      · rcases h4 : env.read_rec_err ((w.curs cid).dupe_cache.rid) with _ | st
        · have hres : read_record_step env w cid entry = (0, w) := by
            unfold read_record_step
            simp [hA, hB, h2, h4]
          rw [hres]
          exact ⟨hid, rfl⟩
        · have hres : read_record_step env w cid entry = (st, w) := by
            unfold read_record_step
            simp [hA, hB, h2, h4]
          rw [hres]
          exact ⟨hid, rfl⟩
    · rcases h4 : env.read_rec_err entry.ptr with _ | st
      · have hres : read_record_step env w cid entry = (0, w) := by
          unfold read_record_step
          simp [hA, hB, h4]
        rw [hres]
        exact ⟨hid, rfl⟩
      · have hres : read_record_step env w cid entry = (st, w) := by
          unfold read_record_step
          simp [hA, hB, h4]
        rw [hres]
        exact ⟨hid, rfl⟩
  · rcases h4 : env.read_rec_err entry.ptr with _ | st
    · have hres : read_record_step env w cid entry = (0, w) := by
        unfold read_record_step
        simp [hA, h4]
      rw [hres]
      exact ⟨hid, rfl⟩
    · have hres : read_record_step env w cid entry = (st, w) := by
        unfold read_record_step
        simp [hA, h4]
      rw [hres]
      exact ⟨hid, rfl⟩

/-- The whole read phase only ever touches the duplicate cache. -/
theorem read_step_fields (env : Env) (w : World) (cid : Nat)
    (uk ur : Bool) :
    eqExceptCache (w.curs cid) ((read_step env w cid uk ur).2.curs cid) ∧
    (read_step env w cid uk ur).2.lists = w.lists := by
  have hid : eqExceptCache (w.curs cid) (w.curs cid) :=
    ⟨rfl, rfl, rfl, rfl, rfl, rfl, rfl⟩
  by_cases huk : uk = true
  · rcases hrk : env.read_key_err
        (keyAt env ((w.curs cid).page) ((w.curs cid).index)).data with _ | st
    · by_cases hur : ur = true
      · have hres : read_step env w cid uk ur =
            read_record_step env w cid
              (keyAt env ((w.curs cid).page) ((w.curs cid).index)) := by
          unfold read_step
          simp [huk, hrk, hur]
        rw [hres]
        exact read_record_step_fields env w cid _
      · have hres : read_step env w cid uk ur = (0, w) := by
          unfold read_step
          simp [huk, hrk, hur]
        rw [hres]
        exact ⟨hid, rfl⟩
    · have hres : read_step env w cid uk ur = (st, w) := by
        unfold read_step
        simp [huk, hrk]
      rw [hres]
      exact ⟨hid, rfl⟩
  · by_cases hur : ur = true
    · have hres : read_step env w cid uk ur =
          read_record_step env w cid
            (keyAt env ((w.curs cid).page) ((w.curs cid).index)) := by
        unfold read_step
        simp [huk, hur]
      rw [hres]
      exact read_record_step_fields env w cid _
    · have hres : read_step env w cid uk ur = (0, w) := by
        unfold read_step
        simp [huk, hur]
      rw [hres]
      exact ⟨hid, rfl⟩

/-- Outcomes survive the read phase glue: a failing position is
returned as is, a successful one is followed by reads that only touch
the cache. -/
theorem after_position_outcome (env : Env) (w : World) (cid : Nat)
    (uk ur : Bool) (r : Nat × World)
    (h : errorOutcome env w r.2 cid) :
    errorOutcome env w (after_position env cid uk ur r).2 cid := by
  obtain ⟨st, w2⟩ := r
  by_cases hst : st ≠ 0
  · simpa [after_position, hst] using h
  · have hres : after_position env cid uk ur (st, w2) =
        read_step env w2 cid uk ur := by
      unfold after_position
      simp [hst]
    rw [hres]
    have hf := read_step_fields env w2 cid uk ur
    exact errorOutcome_transport env w w2 _ cid hf.1 hf.2 h

/-- `cursorWF` only depends on the cache-free cursor fields and the
list memberships. -/
theorem cursorWF_transport (env : Env) (w w2 : World) (cid : Nat)
    (hc : eqExceptCache (w.curs cid) (w2.curs cid))
    (hl : w2.lists = w.lists) (h : cursorWF env w cid) :
    cursorWF env w2 cid := by
  obtain ⟨h1, h2, h3, h4, h5, h6, h7⟩ := hc
  obtain ⟨hmx, hmem, hcp, hun, hnil⟩ := h
  refine ⟨?_, ?_, ?_, ?_, ?_⟩
  · rcases hmx with h | h
    · exact Or.inl (h1.trans h)
    · exact Or.inr (h2.trans h)
  · intro q hq
    rw [hl] at hq
    exact ⟨h1.trans (hmem q hq).1, h4.trans (hmem q hq).2⟩
  · intro hcc
    have := hcp (h1.symm.trans hcc)
    exact ⟨by rw [h4]; exact this.1, by rw [h4, h5]; exact this.2.1,
      by rw [h4, hl]; exact this.2.2.1, by rw [h7]; exact this.2.2.2⟩
  · intro hu
    rw [h7]
    exact hun (h2.symm.trans hu)
  · intro ha hb
    rw [h7]
    exact hnil (h1.symm.trans ha) (h2.symm.trans hb)

/-- A well-formed COUPLED cursor is in the consistent COUPLED state. -/
theorem cursorWF_coupled_cc (env : Env) (w : World) (cid : Nat)
    (hcw : cursorWF env w cid) (hc : (w.curs cid).coupled = true) :
    coupledConsistent env w cid := by
  obtain ⟨hmx, hmem, hcp, hun, hnil⟩ := hcw
  have hu : (w.curs cid).uncoupled = false := by
    rcases hmx with h | h
    · rw [hc] at h; cases h
    · exact h
  obtain ⟨hlf, hix, hm, hk⟩ := hcp hc
  exact ⟨hc, hu, hk, hlf, hix, hm, fun q hq => (hmem q hq).2.symm⟩

/-- The trivially unchanged outcome. -/
theorem unchangedPos_refl (w : World) (cid : Nat) : unchangedPos w w cid :=
  ⟨⟨rfl, rfl, rfl, rfl, rfl, rfl⟩, fun _ => Iff.rfl⟩

/-- `btree_cursor_insert` ends in one of the outcome states (effect of
the external `btree_insert_cursor` modelled from the spec). -/
theorem insert_outcome (env : Env) (w : World) (cid : Nat)
    (hew : envWF env) (hcw : cursorWF env w cid) :
    errorOutcome env w (btree_cursor_insert env w cid).2 cid := by
  by_cases hbe : env.backend = true
  · rcases hins : env.insert_res with st | ps
    · have hres : btree_cursor_insert env w cid = (st, w) := by
        unfold btree_cursor_insert
        simp [hbe, hins]
      rw [hres]
      exact Or.inl (unchangedPos_refl w cid)
    · obtain ⟨p, s⟩ := ps
      have hnil := set_to_nil_nilReleased env w cid hcw
      have hps := hew.2.2.2.2.1 p s hins
      have hres : btree_cursor_insert env w cid =
          (0, updCursor (page_add_cursor (btree_cursor_set_to_nil w cid)
            p cid) cid
            (fun c => { c with coupled := true, page := p, index := s, dupe_id := 0 })) := by
        unfold btree_cursor_insert
        simp [hbe, hins]
      rw [hres]
      refine Or.inr (Or.inr (Or.inl ⟨by simp [updCursor],
        by simp [updCursor, page_add_cursor, hnil.2.1],
        by simp [updCursor, page_add_cursor, hnil.2.2.1],
        by simp [updCursor, page_add_cursor, hps.1],
        by simp [updCursor, page_add_cursor, hps.2],
        by simp [updCursor, page_add_cursor], ?_⟩))
      intro q hq
      simp only [updCursor_curs_self, updCursor, page_add_cursor] at hq ⊢
      by_cases hqp : q = p
      · simp [hqp]
      · rw [if_neg hqp] at hq
        exact absurd hq (hnil.2.2.2 q)
  · have hbf : env.backend = false := by
      rcases h : env.backend with _ | _
      · rfl
      · exact absurd h hbe
    have hres : btree_cursor_insert env w cid =
        (HAM_NOT_INITIALIZED, w) := by
      unfold btree_cursor_insert
      simp [hbf]
    rw [hres]
    exact Or.inl (unchangedPos_refl w cid)

/-- `btree_cursor_erase` ends in one of the outcome states: unchanged
on early rejection, an UNCOUPLED snapshot when the external erase
fails after the internal uncouple, NIL on success. -/
theorem erase_outcome (env : Env) (w : World) (cid : Nat)
    (hew : envWF env) (hcw : cursorWF env w cid) :
    errorOutcome env w (btree_cursor_erase env w cid).2 cid := by
  by_cases hbe : env.backend = true
  · by_cases hc : (w.curs cid).coupled = true
    · have hu : (w.curs cid).uncoupled = false := by
        rcases hcw.1 with h | h
        · rw [hc] at h; cases h
        · exact h
      have hnn : btree_cursor_is_nil (w.curs cid) = false := by
        unfold btree_cursor_is_nil
        simp [hc]
      have huncouple : btree_cursor_uncouple env w cid false =
          (0, updCursor (page_remove_cursor w ((w.curs cid).page) cid) cid
            (fun c => { c with coupled := false, uncoupled := true, ukey := some (keyAt env ((w.curs cid).page) ((w.curs cid).index)).data })) := by
        unfold btree_cursor_uncouple
        simp [hu, hnn]
      have hoff : ∀ q, cid ∉
          (updCursor (page_remove_cursor w ((w.curs cid).page) cid) cid
            (fun c => { c with coupled := false, uncoupled := true, ukey := some (keyAt env ((w.curs cid).page) ((w.curs cid).index)).data })).lists q := by
        intro q hq
        simp only [updCursor, page_remove_cursor] at hq
        by_cases hqp : q = (w.curs cid).page
        · rw [if_pos hqp] at hq
          rcases List.mem_filter.mp hq with ⟨_, hne⟩
          simp at hne
        · rw [if_neg hqp] at hq
          exact hqp ((hcw.2.1 q hq).2.symm)
      have hres : btree_cursor_erase env w cid =
          erase_uncoupled env
            (updCursor (page_remove_cursor w ((w.curs cid).page) cid) cid
              (fun c => { c with coupled := false, uncoupled := true, ukey := some (keyAt env ((w.curs cid).page) ((w.curs cid).index)).data })) cid := by
        unfold btree_cursor_erase
        simp [hbe, hc, huncouple]
      rw [hres]
      set w1 := updCursor (page_remove_cursor w ((w.curs cid).page) cid) cid
        (fun c => { c with coupled := false, uncoupled := true, ukey := some (keyAt env ((w.curs cid).page) ((w.curs cid).index)).data }) with hw1
      rcases herase : env.erase_err ((w1.curs cid).ukey.getD 0) with _ | st
      · have hres2 : erase_uncoupled env w1 cid =
            (0, btree_cursor_set_to_nil w1 cid) := by
          unfold erase_uncoupled
          simp [herase]
        rw [hres2]
        have hcw1 : cursorWF env w1 cid := by
          refine ⟨Or.inl (by simp [hw1, updCursor]), ?_, ?_, ?_, ?_⟩
          · intro q hq
            exact absurd hq (hoff q)
          · intro hcc
            rw [hw1] at hcc
            simp [updCursor] at hcc
          · intro _
            simp [hw1, updCursor]
          · intro _ hb
            rw [hw1] at hb
            simp [updCursor] at hb
        exact Or.inr (Or.inl (set_to_nil_nilReleased env w1 cid hcw1))
      · have hres2 : erase_uncoupled env w1 cid = (st, w1) := by
          unfold erase_uncoupled
          simp [herase]
        rw [hres2]
        exact Or.inr (Or.inr (Or.inr ⟨hc,
          by simp [hw1, updCursor, page_remove_cursor],
          by simp [hw1, updCursor, page_remove_cursor],
          by simp [hw1, updCursor, page_remove_cursor],
          by simp [hw1, updCursor, page_remove_cursor], hoff⟩))
    · by_cases hu : (w.curs cid).uncoupled = true
      · have hcf : (w.curs cid).coupled = false := by
          rcases h : (w.curs cid).coupled with _ | _
          · rfl
          · exact absurd h hc
        have hres : btree_cursor_erase env w cid =
            erase_uncoupled env w cid := by
          unfold btree_cursor_erase
          simp [hbe, hcf, hu]
        rw [hres]
        rcases herase : env.erase_err ((w.curs cid).ukey.getD 0) with _ | st
        · have hres2 : erase_uncoupled env w cid =
              (0, btree_cursor_set_to_nil w cid) := by
            unfold erase_uncoupled
            simp [herase]
          rw [hres2]
          exact Or.inr (Or.inl (set_to_nil_nilReleased env w cid hcw))
        · have hres2 : erase_uncoupled env w cid = (st, w) := by
            unfold erase_uncoupled
            simp [herase]
          rw [hres2]
          exact Or.inl (unchangedPos_refl w cid)
      · have hcf : (w.curs cid).coupled = false := by
          rcases h : (w.curs cid).coupled with _ | _
          · rfl
          · exact absurd h hc
        have huf : (w.curs cid).uncoupled = false := by
          rcases h : (w.curs cid).uncoupled with _ | _
          · rfl
          · exact absurd h hu
        have hres : btree_cursor_erase env w cid =
            (HAM_CURSOR_IS_NIL, w) := by
          unfold btree_cursor_erase
          simp [hbe, hcf, huf]
        rw [hres]
        exact Or.inl (unchangedPos_refl w cid)
  · have hbf : env.backend = false := by
      rcases h : env.backend with _ | _
      · rfl
      · exact absurd h hbe
    have hres : btree_cursor_erase env w cid =
        (HAM_NOT_INITIALIZED, w) := by
      unfold btree_cursor_erase
      simp [hbf]
    rw [hres]
    exact Or.inl (unchangedPos_refl w cid)

/-- `overwrite_coupled` only clears the duplicate cache. -/
theorem overwrite_coupled_world (env : Env) (w : World) (cid : Nat) :
    (overwrite_coupled env w cid).2 =
      updCursor w cid (fun c => { c with dupe_cache := default }) := by
  unfold overwrite_coupled
  rcases h : env.set_record_err with _ | st <;> simp [h]

/-- `btree_cursor_overwrite` ends in one of the outcome states. -/
theorem overwrite_outcome (env : Env) (w : World) (cid : Nat)
    (hew : envWF env) (hcw : cursorWF env w cid) :
    errorOutcome env w (btree_cursor_overwrite env w cid).2 cid := by
  have hcache : ∀ (w2 : World),
      eqExceptCache (w2.curs cid)
        ((updCursor w2 cid
          (fun c => { c with dupe_cache := default })).curs cid) := by
    intro w2
    simp [eqExceptCache, updCursor_curs_self]
  by_cases hu : (w.curs cid).uncoupled = true
  · have hcouple := couple_outcome env w cid hew hcw
    by_cases hr : (btree_cursor_couple env w cid).1 ≠ 0
    · have hres : btree_cursor_overwrite env w cid =
          btree_cursor_couple env w cid := by
        unfold btree_cursor_overwrite
        simp [hu, hr]
      rw [hres]
      exact hcouple.1
    · have hr0 : (btree_cursor_couple env w cid).1 = 0 := by
        rcases Decidable.not_not.mp hr with h
        exact h
      have hres : btree_cursor_overwrite env w cid =
          overwrite_coupled env (btree_cursor_couple env w cid).2 cid := by
        unfold btree_cursor_overwrite
        simp [hu, hr0]
      rw [hres]
      have hcc := (hcouple.2 hr0).1
      have hw := overwrite_coupled_world env
        (btree_cursor_couple env w cid).2 cid
      rw [hw]
      exact errorOutcome_transport env w (btree_cursor_couple env w cid).2
        _ cid (hcache _) (updCursor_lists _ _ _)
        (Or.inr (Or.inr (Or.inl hcc)))
  · by_cases hc : (w.curs cid).coupled = true
    · have huf : (w.curs cid).uncoupled = false := by
        rcases h : (w.curs cid).uncoupled with _ | _
        · rfl
        · exact absurd h hu
      have hres : btree_cursor_overwrite env w cid =
          overwrite_coupled env w cid := by
        unfold btree_cursor_overwrite
        simp [huf, hc]
      rw [hres, overwrite_coupled_world]
      exact errorOutcome_transport env w w _ cid (hcache w)
        (updCursor_lists _ _ _) (Or.inl (unchangedPos_refl w cid))
    · have huf : (w.curs cid).uncoupled = false := by
        rcases h : (w.curs cid).uncoupled with _ | _
        · rfl
        · exact absurd h hu
      have hcf : (w.curs cid).coupled = false := by
        rcases h : (w.curs cid).coupled with _ | _
        · rfl
        · exact absurd h hc
      have hres : btree_cursor_overwrite env w cid =
          (HAM_CURSOR_IS_NIL, w) := by
        unfold btree_cursor_overwrite
        simp [huf, hcf]
      rw [hres]
      exact Or.inl (unchangedPos_refl w cid)

/-- A successful left descent lands on a non-empty leaf. -/
theorem descend_left_ok (env : Env) (fuel : Nat) :
    ∀ q p, descend_left env fuel q = Except.ok p →
      (env.nodes p).is_leaf = true ∧ 0 < (env.nodes p).keys.length := by
  induction fuel with
  | zero => intro q p h; cases h
  | succ n ih =>
      intro q p h
      unfold descend_left at h
      by_cases h0 : (env.nodes q).keys.length = 0
      · rw [if_pos h0] at h; cases h
      · rw [if_neg h0] at h
        by_cases hl : (env.nodes q).is_leaf = true
        · rw [if_pos hl] at h
          cases h
          exact ⟨hl, Nat.pos_of_ne_zero h0⟩
        · rw [if_neg hl] at h
          rcases hf : env.fetch_err (env.nodes q).ptr_left with _ | st
          · rw [hf] at h
            exact ih _ p h
          · rw [hf] at h; cases h

/-- A successful right descent lands on a non-empty leaf. -/
theorem descend_right_ok (env : Env) (fuel : Nat) :
    ∀ q p, descend_right env fuel q = Except.ok p →
      (env.nodes p).is_leaf = true ∧ 0 < (env.nodes p).keys.length := by
  induction fuel with
  | zero => intro q p h; cases h
  | succ n ih =>
      intro q p h
      unfold descend_right at h
      by_cases h0 : (env.nodes q).keys.length = 0
      · rw [if_pos h0] at h; cases h
      · rw [if_neg h0] at h
        by_cases hl : (env.nodes q).is_leaf = true
        · rw [if_pos hl] at h
          cases h
          exact ⟨hl, Nat.pos_of_ne_zero h0⟩
        · rw [if_neg hl] at h
          rcases hf : env.fetch_err
              ((env.nodes q).keys.getD ((env.nodes q).keys.length - 1)
                default).ptr with _ | st
          · simp only [hf] at h
            exact ih _ p h
          · simp only [hf] at h
            exact Except.noConfusion h

/-- `__move_first` ends NIL on failure, consistent COUPLED at slot 0 of
the found leaf on success. -/
theorem move_first_outcome (env : Env) (fuel : Nat) (w : World)
    (cid : Nat) (hew : envWF env) (hcw : cursorWF env w cid) :
    errorOutcome env w (move_first env fuel w cid).2 cid := by
  have hnil := set_to_nil_nilReleased env w cid hcw
  by_cases hroot : env.rootpage = 0
  · have hres : move_first env fuel w cid =
        (HAM_KEY_NOT_FOUND, btree_cursor_set_to_nil w cid) := by
      unfold move_first
      simp [hroot]
    rw [hres]
    exact Or.inr (Or.inl hnil)
  · rcases hf : env.fetch_err env.rootpage with _ | st
    · rcases hd : descend_left env fuel env.rootpage with st | p
      · have hres : move_first env fuel w cid =
            (st, btree_cursor_set_to_nil w cid) := by
          unfold move_first
          simp [hroot, hf, hd]
        rw [hres]
        exact Or.inr (Or.inl hnil)
      · have hpl := descend_left_ok env fuel env.rootpage p hd
        have hres : move_first env fuel w cid =
            (0, updCursor (page_add_cursor (btree_cursor_set_to_nil w cid)
              p cid) cid
              (fun c => { c with coupled := true, page := p, index := 0, dupe_id := 0 })) := by
          unfold move_first
          simp [hroot, hf, hd]
        rw [hres]
        refine Or.inr (Or.inr (Or.inl ⟨by simp [updCursor],
          by simp [updCursor, page_add_cursor, hnil.2.1],
          by simp [updCursor, page_add_cursor, hnil.2.2.1],
          by simp [updCursor, page_add_cursor, hpl.1],
          by simp [updCursor, page_add_cursor, hpl.2],
          by simp [updCursor, page_add_cursor], ?_⟩))
        intro q hq
        simp only [updCursor_curs_self, updCursor, page_add_cursor] at hq ⊢
        by_cases hqp : q = p
        · simp [hqp]
        · rw [if_neg hqp] at hq
          exact absurd hq (hnil.2.2.2 q)
    · have hres : move_first env fuel w cid =
          (st, btree_cursor_set_to_nil w cid) := by
        unfold move_first
        simp [hroot, hf]
      rw [hres]
      exact Or.inr (Or.inl hnil)

/-- The duplicate-count tail, run from a consistent COUPLED state,
stays in a consistent COUPLED state whatever the blob store answers. -/
theorem dupe_tail_cc (env : Env) (w : World) (cid : Nat)
    (entry : btree_key_t) (fl : MoveFlags)
    (hcc : coupledConsistent env w cid) :
    coupledConsistent env (dupe_tail env w cid entry fl).2 cid := by
  by_cases hA : entry.flags &&& KEY_HAS_DUPLICATES ≠ 0
  · by_cases hS : fl.skip_dup = true
    · have hres : dupe_tail env w cid entry fl = (0, w) := by
        unfold dupe_tail
        simp [hA, hS]
      rw [hres]
      exact hcc
    · have hSf : fl.skip_dup = false := by
        rcases h : fl.skip_dup with _ | _
        · rfl
        · exact absurd h hS
      rcases hg : env.dup_count entry.ptr with st | count
      · have hres : dupe_tail env w cid entry fl = (st, w) := by
          unfold dupe_tail
          simp [hA, hSf, hg]
        rw [hres]
        exact hcc
      · have hres : dupe_tail env w cid entry fl =
            (0, updCursor w cid (fun c => { c with dupe_id := count - 1 })) := by
          unfold dupe_tail
          simp [hA, hSf, hg]
        rw [hres]
        obtain ⟨ha, hb, hk, hlf, hix, hmem, hu⟩ := hcc
        refine ⟨by simp [updCursor_curs_self, ha],
          by simp [updCursor_curs_self, hb],
          by simp [updCursor_curs_self, hk], ?_, ?_, ?_, ?_⟩
        · simp only [updCursor_curs_self]
          simpa using hlf
        · simp only [updCursor_curs_self]
          simpa using hix
        · simp only [updCursor_curs_self, updCursor_lists]
          simpa using hmem
        · intro q hq
          simp only [updCursor_curs_self, updCursor_lists] at hq ⊢
          exact hu q hq
  · have hres : dupe_tail env w cid entry fl = (0, w) := by
      unfold dupe_tail
      simp [hA]
    rw [hres]
    exact hcc

/-- `__move_last` ends NIL on failure before coupling, consistent
COUPLED at the last slot of the found leaf afterwards (also when the
duplicate-count query fails). -/
theorem move_last_outcome (env : Env) (fuel : Nat) (w : World)
    (cid : Nat) (fl : MoveFlags) (hew : envWF env)
    (hcw : cursorWF env w cid) :
    errorOutcome env w (move_last env fuel w cid fl).2 cid := by
  have hnil := set_to_nil_nilReleased env w cid hcw
  by_cases hroot : env.rootpage = 0
  · have hres : move_last env fuel w cid fl =
        (HAM_KEY_NOT_FOUND, btree_cursor_set_to_nil w cid) := by
      unfold move_last
      simp [hroot]
    rw [hres]
    exact Or.inr (Or.inl hnil)
  · rcases hf : env.fetch_err env.rootpage with _ | st
    · rcases hd : descend_right env fuel env.rootpage with st | p
      · have hres : move_last env fuel w cid fl =
            (st, btree_cursor_set_to_nil w cid) := by
          unfold move_last
          simp [hroot, hf, hd]
        rw [hres]
        exact Or.inr (Or.inl hnil)
      · have hpl := descend_right_ok env fuel env.rootpage p hd
        have hres : move_last env fuel w cid fl =
            dupe_tail env
              (updCursor (page_add_cursor (btree_cursor_set_to_nil w cid)
                p cid) cid
                (fun c => { c with coupled := true, page := p, index := (env.nodes p).keys.length - 1, dupe_id := 0 }))
              cid (keyAt env p ((env.nodes p).keys.length - 1)) fl := by
          unfold move_last
          simp [hroot, hf, hd]
        rw [hres]
        have hcc : coupledConsistent env
            (updCursor (page_add_cursor (btree_cursor_set_to_nil w cid)
              p cid) cid
              (fun c => { c with coupled := true, page := p, index := (env.nodes p).keys.length - 1, dupe_id := 0 })) cid := by
          refine ⟨by simp [updCursor],
            by simp [updCursor, page_add_cursor, hnil.2.1],
            by simp [updCursor, page_add_cursor, hnil.2.2.1],
            by simp [updCursor, page_add_cursor, hpl.1], ?_,
            by simp [updCursor, page_add_cursor], ?_⟩
          · have hlen := hpl.2
            simp only [updCursor_curs_self]
            simp [updCursor, page_add_cursor]
            omega
          · intro q hq
            simp only [updCursor_curs_self, updCursor, page_add_cursor]
              at hq ⊢
            by_cases hqp : q = p
            · simp [hqp]
            · rw [if_neg hqp] at hq
              exact absurd hq (hnil.2.2.2 q)
        exact Or.inr (Or.inr (Or.inl (dupe_tail_cc env _ cid _ fl hcc)))
    · have hres : move_last env fuel w cid fl =
          (st, btree_cursor_set_to_nil w cid) := by
        unfold move_last
        simp [hroot, hf]
      rw [hres]
      exact Or.inr (Or.inl hnil)

/-- The cross-key part of `__move_next`, from a consistent COUPLED
state, ends either NIL-released (failed right-sibling fetch after the
cursor left the old page) or consistent COUPLED. -/
theorem move_next_cross_outcome (env : Env) (w : World) (cid : Nat)
    (fl : MoveFlags) (hew : envWF env)
    (hcc : coupledConsistent env w cid) :
    nilReleased (move_next_cross env w cid fl).2 cid ∨
    coupledConsistent env (move_next_cross env w cid fl).2 cid := by
  obtain ⟨ha, hb, hk, hlf, hix, hmem, hu⟩ := hcc
  by_cases ho : fl.only_dup = true
  · have hres : move_next_cross env w cid fl = (HAM_KEY_NOT_FOUND, w) := by
      unfold move_next_cross
      simp [ho]
    rw [hres]
    exact Or.inr ⟨ha, hb, hk, hlf, hix, hmem, hu⟩
  · by_cases hlt : (w.curs cid).index + 1 <
        (env.nodes ((w.curs cid).page)).keys.length
    · have hres : move_next_cross env w cid fl =
          (HAM_SUCCESS, updCursor w cid
            (fun c => { c with index := c.index + 1, dupe_id := 0 })) := by
        unfold move_next_cross
        simp [ho, hlt]
      rw [hres]
      refine Or.inr ⟨by simp [updCursor_curs_self, ha],
        by simp [updCursor_curs_self, hb],
        by simp [updCursor_curs_self, hk], ?_, ?_, ?_, ?_⟩
      · simp only [updCursor_curs_self]
        simpa using hlf
      · simp only [updCursor_curs_self]
        simpa using hlt
      · simp only [updCursor_curs_self, updCursor_lists]
        simpa using hmem
      · intro q hq
        simp only [updCursor_curs_self, updCursor_lists] at hq ⊢
        exact hu q hq
    · by_cases hr : (env.nodes ((w.curs cid).page)).right = 0
      · have hres : move_next_cross env w cid fl =
            (HAM_KEY_NOT_FOUND, w) := by
          unfold move_next_cross
          simp [ho, hlt, hr]
        rw [hres]
        exact Or.inr ⟨ha, hb, hk, hlf, hix, hmem, hu⟩
      · have hoff : ∀ q, cid ∉
            (updCursor (page_remove_cursor w ((w.curs cid).page) cid) cid
              (fun c => { c with coupled := false })).lists q := by
          intro q hq
          simp only [updCursor, page_remove_cursor] at hq
          by_cases hqp : q = (w.curs cid).page
          · rw [if_pos hqp] at hq
            rcases List.mem_filter.mp hq with ⟨_, hne⟩
            simp at hne
          · rw [if_neg hqp] at hq
            exact hqp (hu q hq)
        rcases hf : env.fetch_err ((env.nodes ((w.curs cid).page)).right)
            with _ | st
        · have hres : move_next_cross env w cid fl =
              (HAM_SUCCESS, updCursor (page_add_cursor
                (updCursor (page_remove_cursor w ((w.curs cid).page) cid)
                  cid (fun c => { c with coupled := false }))
                ((env.nodes ((w.curs cid).page)).right) cid) cid
                (fun c => { c with coupled := true, page := (env.nodes ((w.curs cid).page)).right, index := 0, dupe_id := 0 })) := by
            unfold move_next_cross
            simp [ho, hlt, hr, hf]
          rw [hres]
          have hrl := hew.2.2.1 ((w.curs cid).page) hlf hr
          have hrc := hew.1 _ hrl
          refine Or.inr ⟨by simp [updCursor, page_add_cursor,
              page_remove_cursor],
            by simp [updCursor, page_add_cursor, page_remove_cursor, hb],
            by simp [updCursor, page_add_cursor, page_remove_cursor, hk],
            by simp [updCursor, page_add_cursor, page_remove_cursor, hrl],
            by simp [updCursor, page_add_cursor, page_remove_cursor, hrc],
            by simp [updCursor, page_add_cursor, page_remove_cursor], ?_⟩
          intro q hq
          simp only [updCursor_curs_self, updCursor, page_add_cursor]
            at hq ⊢
          by_cases hqp : q = (env.nodes ((w.curs cid).page)).right
          · simp [hqp]
          · rw [if_neg hqp] at hq
            exact absurd hq (hoff q)
        · have hres : move_next_cross env w cid fl =
              (st, updCursor (page_remove_cursor w ((w.curs cid).page) cid)
                cid (fun c => { c with coupled := false })) := by
            unfold move_next_cross
            simp [ho, hlt, hr, hf]
          rw [hres]
          exact Or.inl ⟨by simp [updCursor, page_remove_cursor],
            by simp [updCursor, page_remove_cursor, hb],
            by simp [updCursor, page_remove_cursor, hk], hoff⟩

/-- `__move_next` on a consistent COUPLED cursor ends NIL-released or
consistent COUPLED. -/
theorem move_next_coupled_outcome (env : Env) (w : World) (cid : Nat)
    (fl : MoveFlags) (hew : envWF env)
    (hcc : coupledConsistent env w cid) :
    nilReleased (move_next_coupled env w cid fl).2 cid ∨
    coupledConsistent env (move_next_coupled env w cid fl).2 cid := by
  by_cases hA : (keyAt env ((w.curs cid).page)
      ((w.curs cid).index)).flags &&& KEY_HAS_DUPLICATES ≠ 0
  · by_cases hS : fl.skip_dup = true
    · have hres : move_next_coupled env w cid fl =
          move_next_cross env w cid fl := by
        unfold move_next_coupled
        simp [hA, hS]
      rw [hres]
      exact move_next_cross_outcome env w cid fl hew hcc
    · have hSf : fl.skip_dup = false := by
        rcases h : fl.skip_dup with _ | _
        · rfl
        · exact absurd h hS
      rcases hg : env.dup_get (keyAt env ((w.curs cid).page)
          ((w.curs cid).index)).ptr ((w.curs cid).dupe_id + 1) with st | de
      · by_cases hst : st ≠ HAM_KEY_NOT_FOUND
        · have hres : move_next_coupled env w cid fl = (st, w) := by
            unfold move_next_coupled
            simp [hA, hSf, hg, hst]
          rw [hres]
          exact Or.inr hcc
        · have hstf : st = HAM_KEY_NOT_FOUND := Decidable.not_not.mp hst
          have hres : move_next_coupled env w cid fl =
              move_next_cross env w cid fl := by
            unfold move_next_coupled
            simp [hA, hSf, hg, hstf]
          rw [hres]
          exact move_next_cross_outcome env w cid fl hew hcc
      · have hres : move_next_coupled env w cid fl =
            (0, updCursor w cid (fun c => { c with dupe_id := c.dupe_id + 1, dupe_cache := de })) := by
          unfold move_next_coupled
          simp [hA, hSf, hg]
        rw [hres]
        obtain ⟨ha, hb, hk, hlf, hix, hmem, hu⟩ := hcc
        refine Or.inr ⟨by simp [updCursor_curs_self, ha],
          by simp [updCursor_curs_self, hb],
          by simp [updCursor_curs_self, hk], ?_, ?_, ?_, ?_⟩
        · simp only [updCursor_curs_self]
          simpa using hlf
        · simp only [updCursor_curs_self]
          simpa using hix
        · simp only [updCursor_curs_self, updCursor_lists]
          simpa using hmem
        · intro q hq
          simp only [updCursor_curs_self, updCursor_lists] at hq ⊢
          exact hu q hq
  · have hres : move_next_coupled env w cid fl =
        move_next_cross env w cid fl := by
      unfold move_next_coupled
      simp [hA]
    rw [hres]
    exact move_next_cross_outcome env w cid fl hew hcc

/-- `__move_next` (couple wrapper included) ends in one of the outcome
states on any well-formed start state. -/
theorem move_next_outcome (env : Env) (w : World) (cid : Nat)
    (fl : MoveFlags) (hew : envWF env) (hcw : cursorWF env w cid) :
    errorOutcome env w (move_next env w cid fl).2 cid := by
  by_cases hu : (w.curs cid).uncoupled = true
  · have hco := couple_outcome env w cid hew hcw
    by_cases hr : (btree_cursor_couple env w cid).1 ≠ 0
    · have hres : move_next env w cid fl =
          btree_cursor_couple env w cid := by
        unfold move_next
        simp [hu, hr]
      rw [hres]
      exact hco.1
    · have hr0 : (btree_cursor_couple env w cid).1 = 0 :=
        Decidable.not_not.mp hr
      have hres : move_next env w cid fl =
          move_next_coupled env (btree_cursor_couple env w cid).2 cid fl := by
        unfold move_next
        simp [hu, hr0]
      rw [hres]
      rcases move_next_coupled_outcome env
          (btree_cursor_couple env w cid).2 cid fl hew
          ((hco.2 hr0).1) with h | h
      · exact Or.inr (Or.inl h)
      · exact Or.inr (Or.inr (Or.inl h))
  · have huf : (w.curs cid).uncoupled = false := by
      rcases h : (w.curs cid).uncoupled with _ | _
      · rfl
      · exact absurd h hu
    by_cases hc : (w.curs cid).coupled = true
    · have hres : move_next env w cid fl =
          move_next_coupled env w cid fl := by
        unfold move_next
        simp [huf, hc]
      rw [hres]
      rcases move_next_coupled_outcome env w cid fl hew
          (cursorWF_coupled_cc env w cid hcw hc) with h | h
      · exact Or.inr (Or.inl h)
      · exact Or.inr (Or.inr (Or.inl h))
    · have hcf : (w.curs cid).coupled = false := by
        rcases h : (w.curs cid).coupled with _ | _
        · rfl
        · exact absurd h hc
      have hres : move_next env w cid fl = (HAM_CURSOR_IS_NIL, w) := by
        unfold move_next
        simp [huf, hcf]
      rw [hres]
      exact Or.inl (unchangedPos_refl w cid)

/-- The cross-key part of `__move_previous`, from a consistent COUPLED
state, ends either NIL-released (failed left-sibling fetch) or
consistent COUPLED — including the case where the duplicate-count tail
fails after the cursor has already moved to the new slot. -/
theorem move_previous_cross_outcome (env : Env) (w : World) (cid : Nat)
    (fl : MoveFlags) (hew : envWF env)
    (hcc : coupledConsistent env w cid) :
    nilReleased (move_previous_cross env w cid fl).2 cid ∨
    coupledConsistent env (move_previous_cross env w cid fl).2 cid := by
  obtain ⟨ha, hb, hk, hlf, hix, hmem, hu⟩ := hcc
  by_cases ho : fl.only_dup = true
  · have hres : move_previous_cross env w cid fl =
        (HAM_KEY_NOT_FOUND, w) := by
      unfold move_previous_cross
      simp [ho]
    rw [hres]
    exact Or.inr ⟨ha, hb, hk, hlf, hix, hmem, hu⟩
  · by_cases hz : (w.curs cid).index ≠ 0
    · have hres : move_previous_cross env w cid fl =
          dupe_tail env (updCursor w cid
            (fun c => { c with index := c.index - 1, dupe_id := 0 })) cid
            (keyAt env ((w.curs cid).page) ((w.curs cid).index - 1)) fl := by
        unfold move_previous_cross
        simp [ho, hz]
      rw [hres]
      have hcc1 : coupledConsistent env (updCursor w cid
          (fun c => { c with index := c.index - 1, dupe_id := 0 })) cid := by
        refine ⟨by simp [updCursor_curs_self, ha],
          by simp [updCursor_curs_self, hb],
          by simp [updCursor_curs_self, hk], ?_, ?_, ?_, ?_⟩
        · simp only [updCursor_curs_self]
          simpa using hlf
        · simp only [updCursor_curs_self]
          omega
        · simp only [updCursor_curs_self, updCursor_lists]
          simpa using hmem
        · intro q hq
          simp only [updCursor_curs_self, updCursor_lists] at hq ⊢
          exact hu q hq
      exact Or.inr (dupe_tail_cc env _ cid _ fl hcc1)
    · by_cases hl : (env.nodes ((w.curs cid).page)).left = 0
      · have hres : move_previous_cross env w cid fl =
            (HAM_KEY_NOT_FOUND, w) := by
          unfold move_previous_cross
          simp [ho, hz, hl]
        rw [hres]
        exact Or.inr ⟨ha, hb, hk, hlf, hix, hmem, hu⟩
      · have hoff : ∀ q, cid ∉
            (updCursor (page_remove_cursor w ((w.curs cid).page) cid) cid
              (fun c => { c with coupled := false })).lists q := by
          intro q hq
          simp only [updCursor, page_remove_cursor] at hq
          by_cases hqp : q = (w.curs cid).page
          · rw [if_pos hqp] at hq
            rcases List.mem_filter.mp hq with ⟨_, hne⟩
            simp at hne
          · rw [if_neg hqp] at hq
            exact hqp (hu q hq)
        rcases hf : env.fetch_err ((env.nodes ((w.curs cid).page)).left)
            with _ | st
        · have hll := hew.2.2.2.1 ((w.curs cid).page) hlf hl
          have hlc := hew.1 _ hll
          have hres : move_previous_cross env w cid fl =
              dupe_tail env (updCursor (page_add_cursor
                (updCursor (page_remove_cursor w ((w.curs cid).page) cid)
                  cid (fun c => { c with coupled := false }))
                ((env.nodes ((w.curs cid).page)).left) cid) cid
                (fun c => { c with coupled := true, page := (env.nodes ((w.curs cid).page)).left, index := (env.nodes ((env.nodes ((w.curs cid).page)).left)).keys.length - 1, dupe_id := 0 }))
                cid (keyAt env ((env.nodes ((w.curs cid).page)).left)
                  ((env.nodes ((env.nodes ((w.curs cid).page)).left)).keys.length - 1)) fl := by
            unfold move_previous_cross
            simp [ho, hz, hl, hf]
          rw [hres]
          have hcc1 : coupledConsistent env (updCursor (page_add_cursor
              (updCursor (page_remove_cursor w ((w.curs cid).page) cid)
                cid (fun c => { c with coupled := false }))
              ((env.nodes ((w.curs cid).page)).left) cid) cid
              (fun c => { c with coupled := true, page := (env.nodes ((w.curs cid).page)).left, index := (env.nodes ((env.nodes ((w.curs cid).page)).left)).keys.length - 1, dupe_id := 0 })) cid := by
            refine ⟨by simp [updCursor, page_add_cursor,
                page_remove_cursor],
              by simp [updCursor, page_add_cursor, page_remove_cursor, hb],
              by simp [updCursor, page_add_cursor, page_remove_cursor, hk],
              by simp [updCursor, page_add_cursor, page_remove_cursor, hll],
              ?_,
              by simp [updCursor, page_add_cursor, page_remove_cursor], ?_⟩
            · simp only [updCursor_curs_self]
              simp [updCursor, page_add_cursor, page_remove_cursor]
              omega
            · intro q hq
              simp only [updCursor_curs_self, updCursor, page_add_cursor]
                at hq ⊢
              by_cases hqp : q = (env.nodes ((w.curs cid).page)).left
              · simp [hqp]
              · rw [if_neg hqp] at hq
                exact absurd hq (hoff q)
          exact Or.inr (dupe_tail_cc env _ cid _ fl hcc1)
        · have hres : move_previous_cross env w cid fl =
              (st, updCursor (page_remove_cursor w ((w.curs cid).page) cid)
                cid (fun c => { c with coupled := false })) := by
            unfold move_previous_cross
            simp [ho, hz, hl, hf]
          rw [hres]
          exact Or.inl ⟨by simp [updCursor, page_remove_cursor],
            by simp [updCursor, page_remove_cursor, hb],
            by simp [updCursor, page_remove_cursor, hk], hoff⟩

/-- `__move_previous` on a consistent COUPLED cursor ends NIL-released
or consistent COUPLED. -/
theorem move_previous_coupled_outcome (env : Env) (w : World)
    (cid : Nat) (fl : MoveFlags) (hew : envWF env)
    (hcc : coupledConsistent env w cid) :
    nilReleased (move_previous_coupled env w cid fl).2 cid ∨
    coupledConsistent env (move_previous_coupled env w cid fl).2 cid := by
  by_cases hA : ((keyAt env ((w.curs cid).page)
      ((w.curs cid).index)).flags &&& KEY_HAS_DUPLICATES ≠ 0 &&
      !fl.skip_dup && (w.curs cid).dupe_id > 0) = true
  · rcases hg : env.dup_get (keyAt env ((w.curs cid).page)
        ((w.curs cid).index)).ptr ((w.curs cid).dupe_id - 1) with st | de
    · by_cases hst : st ≠ HAM_KEY_NOT_FOUND
      · have hres : move_previous_coupled env w cid fl = (st, w) := by
          unfold move_previous_coupled
          simp only [hA, if_true, hg]
          simp [hst]
        rw [hres]
        exact Or.inr hcc
      · have hstf : st = HAM_KEY_NOT_FOUND := Decidable.not_not.mp hst
        have hres : move_previous_coupled env w cid fl =
            move_previous_cross env w cid fl := by
          unfold move_previous_coupled
          simp only [hA, if_true, hg]
          simp [hstf]
        rw [hres]
        exact move_previous_cross_outcome env w cid fl hew hcc
    · have hres : move_previous_coupled env w cid fl =
          (0, updCursor w cid (fun c => { c with dupe_id := c.dupe_id - 1, dupe_cache := de })) := by
        unfold move_previous_coupled
        simp only [hA, if_true, hg]
      rw [hres]
      obtain ⟨ha, hb, hk, hlf, hix, hmem, hu⟩ := hcc
      refine Or.inr ⟨by simp [updCursor_curs_self, ha],
        by simp [updCursor_curs_self, hb],
        by simp [updCursor_curs_self, hk], ?_, ?_, ?_, ?_⟩
      · simp only [updCursor_curs_self]
        simpa using hlf
      · simp only [updCursor_curs_self]
        simpa using hix
      · simp only [updCursor_curs_self, updCursor_lists]
        simpa using hmem
      · intro q hq
        simp only [updCursor_curs_self, updCursor_lists] at hq ⊢
        exact hu q hq
  · have hAf : ((keyAt env ((w.curs cid).page)
        ((w.curs cid).index)).flags &&& KEY_HAS_DUPLICATES ≠ 0 &&
        !fl.skip_dup && (w.curs cid).dupe_id > 0) = false := by
      rcases h : ((keyAt env ((w.curs cid).page)
          ((w.curs cid).index)).flags &&& KEY_HAS_DUPLICATES ≠ 0 &&
          !fl.skip_dup && (w.curs cid).dupe_id > 0) with _ | _
      · rfl
      · exact absurd h hA
    have hres : move_previous_coupled env w cid fl =
        move_previous_cross env w cid fl := by
      unfold move_previous_coupled
      simp only [hAf, Bool.false_eq_true, if_false]
    rw [hres]
    exact move_previous_cross_outcome env w cid fl hew hcc

/-- `__move_previous` (couple wrapper included) ends in one of the
outcome states on any well-formed start state. -/
theorem move_previous_outcome (env : Env) (w : World) (cid : Nat)
    (fl : MoveFlags) (hew : envWF env) (hcw : cursorWF env w cid) :
    errorOutcome env w (move_previous env w cid fl).2 cid := by
  by_cases hu : (w.curs cid).uncoupled = true
  · have hco := couple_outcome env w cid hew hcw
    by_cases hr : (btree_cursor_couple env w cid).1 ≠ 0
    · have hres : move_previous env w cid fl =
          btree_cursor_couple env w cid := by
        unfold move_previous
        simp [hu, hr]
      rw [hres]
      exact hco.1
    · have hr0 : (btree_cursor_couple env w cid).1 = 0 :=
        Decidable.not_not.mp hr
      have hres : move_previous env w cid fl =
          move_previous_coupled env (btree_cursor_couple env w cid).2
            cid fl := by
        unfold move_previous
        simp [hu, hr0]
      rw [hres]
      rcases move_previous_coupled_outcome env
          (btree_cursor_couple env w cid).2 cid fl hew
          ((hco.2 hr0).1) with h | h
      · exact Or.inr (Or.inl h)
      · exact Or.inr (Or.inr (Or.inl h))
  · have huf : (w.curs cid).uncoupled = false := by
      rcases h : (w.curs cid).uncoupled with _ | _
      · rfl
      · exact absurd h hu
    by_cases hc : (w.curs cid).coupled = true
    · have hres : move_previous env w cid fl =
          move_previous_coupled env w cid fl := by
        unfold move_previous
        simp [huf, hc]
      rw [hres]
      rcases move_previous_coupled_outcome env w cid fl hew
          (cursorWF_coupled_cc env w cid hcw hc) with h | h
      · exact Or.inr (Or.inl h)
      · exact Or.inr (Or.inr (Or.inl h))
    · have hcf : (w.curs cid).coupled = false := by
        rcases h : (w.curs cid).coupled with _ | _
        · rfl
        · exact absurd h hc
      have hres : move_previous env w cid fl = (HAM_CURSOR_IS_NIL, w) := by
        unfold move_previous
        simp [huf, hcf]
      rw [hres]
      exact Or.inl (unchangedPos_refl w cid)

/-- `btree_cursor_move` ends in one of the outcome states on any
well-formed start state, whatever direction flags, output requests and
injected failures are in play. -/
theorem move_outcome (env : Env) (fuel : Nat) (w : World) (cid : Nat)
    (uk ur : Bool) (fl : MoveFlags) (hew : envWF env)
    (hcw : cursorWF env w cid) :
    errorOutcome env w (btree_cursor_move env fuel w cid uk ur fl).2 cid := by
  by_cases hbe : env.backend = true
  · have hc0 : eqExceptCache (w.curs cid)
        ((updCursor w cid
          (fun c => { c with dupe_cache := default })).curs cid) := by
      simp [eqExceptCache, updCursor_curs_self]
    have hl0 : (updCursor w cid
        (fun c => { c with dupe_cache := default })).lists = w.lists :=
      updCursor_lists w cid _
    have hcw0 : cursorWF env
        (updCursor w cid (fun c => { c with dupe_cache := default }))
        cid := cursorWF_transport env w _ cid hc0 hl0 hcw
    have hsame : unchangedPos w
        (updCursor w cid (fun c => { c with dupe_cache := default }))
        cid :=
      ⟨⟨hc0.1, hc0.2.1, hc0.2.2.2.1, hc0.2.2.2.2.1, hc0.2.2.2.2.2.1,
        hc0.2.2.2.2.2.2⟩, fun q => by rw [hl0]⟩
    by_cases h1 : fl.first = true
    · have hres : btree_cursor_move env fuel w cid uk ur fl =
          after_position env cid uk ur (move_first env fuel
            (updCursor w cid
              (fun c => { c with dupe_cache := default })) cid) := by
        unfold btree_cursor_move
        simp [hbe, h1]
      rw [hres]
      exact after_position_outcome env w cid uk ur _
        (errorOutcome_base_transport env w _ _ cid hc0 hl0
          (move_first_outcome env fuel _ cid hew hcw0))
    · by_cases h2 : fl.last = true
      · have hres : btree_cursor_move env fuel w cid uk ur fl =
            after_position env cid uk ur (move_last env fuel
              (updCursor w cid
                (fun c => { c with dupe_cache := default })) cid fl) := by
          unfold btree_cursor_move
          simp [hbe, h1, h2]
        rw [hres]
        exact after_position_outcome env w cid uk ur _
          (errorOutcome_base_transport env w _ _ cid hc0 hl0
            (move_last_outcome env fuel _ cid fl hew hcw0))
      · by_cases h3 : fl.next = true
        · have hres : btree_cursor_move env fuel w cid uk ur fl =
              after_position env cid uk ur (move_next env
                (updCursor w cid
                  (fun c => { c with dupe_cache := default })) cid fl) := by
            unfold btree_cursor_move
            simp [hbe, h1, h2, h3]
          rw [hres]
          exact after_position_outcome env w cid uk ur _
            (errorOutcome_base_transport env w _ _ cid hc0 hl0
              (move_next_outcome env _ cid fl hew hcw0))
        · by_cases h4 : fl.prev = true
          · have hres : btree_cursor_move env fuel w cid uk ur fl =
                after_position env cid uk ur (move_previous env
                  (updCursor w cid
                    (fun c => { c with dupe_cache := default })) cid fl) := by
              unfold btree_cursor_move
              simp [hbe, h1, h2, h3, h4]
            rw [hres]
            exact after_position_outcome env w cid uk ur _
              (errorOutcome_base_transport env w _ _ cid hc0 hl0
                (move_previous_outcome env _ cid fl hew hcw0))
          · by_cases hu : (w.curs cid).uncoupled = true
            · have hres : btree_cursor_move env fuel w cid uk ur fl =
                  after_position env cid uk ur (btree_cursor_couple env
                    (updCursor w cid
                      (fun c => { c with dupe_cache := default }))
                    cid) := by
                unfold btree_cursor_move btree_cursor_is_nil
                simp [hbe, h1, h2, h3, h4, updCursor_curs_self, hu]
              rw [hres]
              exact after_position_outcome env w cid uk ur _
                (errorOutcome_base_transport env w _ _ cid hc0 hl0
                  (couple_outcome env _ cid hew hcw0).1)
            · have huf : (w.curs cid).uncoupled = false := by
                rcases h : (w.curs cid).uncoupled with _ | _
                · rfl
                · exact absurd h hu
              by_cases hcp : (w.curs cid).coupled = true
              · have hres : btree_cursor_move env fuel w cid uk ur fl =
                    after_position env cid uk ur (0,
                      updCursor w cid
                        (fun c => { c with dupe_cache := default })) := by
                  unfold btree_cursor_move btree_cursor_is_nil
                  simp [hbe, h1, h2, h3, h4, updCursor_curs_self, huf, hcp]
                rw [hres]
                exact after_position_outcome env w cid uk ur _
                  (Or.inl hsame)
              · have hcpf : (w.curs cid).coupled = false := by
                  rcases h : (w.curs cid).coupled with _ | _
                  · rfl
                  · exact absurd h hcp
                by_cases htx : (w.curs cid).txnop = true
                · have hres : btree_cursor_move env fuel w cid uk ur fl =
                      after_position env cid uk ur (0,
                        updCursor w cid
                          (fun c => { c with dupe_cache := default })) := by
                    unfold btree_cursor_move btree_cursor_is_nil
                    simp [hbe, h1, h2, h3, h4, updCursor_curs_self, huf,
                      hcpf, htx]
                  rw [hres]
                  exact after_position_outcome env w cid uk ur _
                    (Or.inl hsame)
                · have htxf : (w.curs cid).txnop = false := by
                    rcases h : (w.curs cid).txnop with _ | _
                    · rfl
                    · exact absurd h htx
                  have hres : btree_cursor_move env fuel w cid uk ur fl =
                      (if uk || ur then HAM_CURSOR_IS_NIL else 0,
                        updCursor w cid
                          (fun c => { c with dupe_cache := default })) := by
                    unfold btree_cursor_move btree_cursor_is_nil
                    simp [hbe, h1, h2, h3, h4, updCursor_curs_self, huf,
                      hcpf, htxf]
                  rw [hres]
                  exact Or.inl hsame
  · have hbf : env.backend = false := by
      rcases h : env.backend with _ | _
      · rfl
      · exact absurd h hbe
    have hres : btree_cursor_move env fuel w cid uk ur fl =
        (HAM_NOT_INITIALIZED, w) := by
      unfold btree_cursor_move
      simp [hbf]
    rw [hres]
    exact Or.inl (unchangedPos_refl w cid)

/-- Every cursor operation of the excerpt ends in one of the outcome
states. -/
theorem runOp_outcome (env : Env) (fuel : Nat) (w : World) (cid : Nat)
    (op : CursorOp) (hew : envWF env) (hcw : cursorWF env w cid) :
    errorOutcome env w (runOp env fuel w cid op).2 cid := by
  cases op with
  | mov uk ur fl => exact move_outcome env fuel w cid uk ur fl hew hcw
  | find k => exact (find_outcome env w cid k hew hcw).1
  | insert => exact insert_outcome env w cid hew hcw
  | erase => exact erase_outcome env w cid hew hcw
  | overwrite => exact overwrite_outcome env w cid hew hcw

/-- The flag word of a plain `HAM_CURSOR_PREVIOUS` move. -/
def flPrev : MoveFlags :=
  { first := false, last := false, next := false, prev := true,
    skip_dup := false, only_dup := false }

/-- Environment for the C4 counterexample: page 8 is a leaf whose slot
0 key has duplicates (rid 77) and whose slot 1 key does not, and the
blob store's duplicate-count query fails with status 55. -/
def envPrevFail : Env :=
  { envTriv with
    nodes := fun p => if p = 8 then
        { is_leaf := true,
          keys := [{ flags := KEY_HAS_DUPLICATES, ptr := 77, data := 30 },
                   { flags := 0, ptr := 0, data := 31 }],
          ptr_left := 0, left := 0, right := 0 }
      else default,
    dup_count := fun _ => Except.error 55 }

/-- World for the C4 counterexample: cursor 0 coupled to page 8,
slot 1. -/
def wPrevFail : World :=
  { curs := fun i => if i = 0 then
      { coupled := true, uncoupled := false, txnop := false,
        page := 8, index := 1, dupe_id := 0, ukey := none,
        dupe_cache := default }
    else default,
    lists := fun q => if q = 8 then [0] else [] }

/-- Counterexample to C4 as stated: a `PREVIOUS` move first steps the
cursor from slot 1 to slot 0, then the duplicate-count query for the
new current key fails; `btree_cursor_move` returns the nonzero status
55 with the cursor COUPLED at slot 0 — a position it did not occupy
before the call — so the cursor is neither in its pre-call state nor
NIL with buffers released. -/
theorem move_error_repositions_counterexample :
    (btree_cursor_move envPrevFail 10 wPrevFail 0 false false flPrev).1 =
      55 ∧
    ¬ (unchangedPos wPrevFail
        (btree_cursor_move envPrevFail 10 wPrevFail 0 false false
          flPrev).2 0 ∨
       nilReleased
        (btree_cursor_move envPrevFail 10 wPrevFail 0 false false
          flPrev).2 0) := by
  constructor
  · decide
  · intro h
    rcases h with ⟨hs, _⟩ | ⟨hcoupled, _⟩
    · exact absurd hs.2.2.2.1 (by decide)
    · exact absurd hcoupled (by decide)

/-- C4 amended: after any failing cursor operation (move with any
flags, find, insert, erase, overwrite) on a well-formed environment and
cursor, the cursor is (i) positionally unchanged, (ii) NIL with its
owned buffers released, (iii) COUPLED at a valid leaf slot consistent
with the page's cursor list — possibly a new position, when the failure
struck after the operation had already repositioned the cursor (failed
duplicate-count query or key/record read), or (iv) an UNCOUPLED
snapshot of its pre-call position (failed external erase after the
internal uncouple).  In particular it is never left half-coupled. -/
theorem failed_cursor_op_outcome (env : Env) (fuel : Nat) (w : World)
    (cid : Nat) (op : CursorOp)
    (hew : envWF env) (hcw : cursorWF env w cid)
    (herr : (runOp env fuel w cid op).1 ≠ 0) :
    errorOutcome env w (runOp env fuel w cid op).2 cid :=
  runOp_outcome env fuel w cid op hew hcw

/-- Environment for the C4 witness: every page is the same one-key
leaf, `find` misses with `KEY_NOT_FOUND`. -/
def envOneLeaf : Env :=
  { envTriv with
    nodes := fun _ =>
      { is_leaf := true,
        keys := [{ flags := 0, ptr := 0, data := 1 }],
        ptr_left := 0, left := 0, right := 0 } }

/-- World for the C4 witness: cursor 0 coupled to slot 0 of page 1. -/
def wOneLeaf : World :=
  { curs := fun i => if i = 0 then
      { coupled := true, uncoupled := false, txnop := false,
        page := 1, index := 0, dupe_id := 0, ukey := none,
        dupe_cache := default }
    else default,
    lists := fun q => if q = 1 then [0] else [] }

/-- Witness for the amended C4: a failing `find` (status
`KEY_NOT_FOUND`) on the concrete one-leaf world ends in one of the four
outcome states. -/
theorem failed_cursor_op_outcome_witness :
    (runOp envOneLeaf 10 wOneLeaf 0 (CursorOp.find 5)).1 ≠ 0 ∧
    errorOutcome envOneLeaf wOneLeaf
      (runOp envOneLeaf 10 wOneLeaf 0 (CursorOp.find 5)).2 0 := by
  have herr : (runOp envOneLeaf 10 wOneLeaf 0 (CursorOp.find 5)).1 ≠ 0 := by
    decide
  have hew : envWF envOneLeaf := by
    refine ⟨?_, ?_, ?_, ?_, ?_, ?_⟩
    · intro p _
      simp [envOneLeaf, envTriv]
    · intro k p s h
      simp [envOneLeaf, envTriv] at h
    · intro p _ hr
      simp [envOneLeaf, envTriv] at hr
    · intro p _ hl
      simp [envOneLeaf, envTriv] at hl
    · intro p s h
      simp [envOneLeaf, envTriv, HAM_KEY_NOT_FOUND] at h
    · intro k st h
      simp [envOneLeaf, envTriv, HAM_KEY_NOT_FOUND] at h
      omega
  have hcw : cursorWF envOneLeaf wOneLeaf 0 := by
    refine ⟨Or.inr (by decide), ?_, ?_, ?_, ?_⟩
    · intro q hq
      by_cases hq1 : q = 1
      · exact ⟨by decide, by simp [wOneLeaf, hq1]⟩
      · simp [wOneLeaf, hq1] at hq
    · intro _
      exact ⟨by decide, by decide, by decide, by decide⟩
    · intro h
      exact absurd h (by decide)
    · intro h _
      exact absurd h (by decide)
  exact ⟨herr, failed_cursor_op_outcome envOneLeaf 10 wOneLeaf 0
    (CursorOp.find 5) hew hcw herr⟩

end Upscaledb
